import Mathlib

/-!
Verification of the portal-geometry and teleportation subsystem of the
`bevy-jam-2` game prototype (`src/plugins/portal/`).  The `f32` vector and
quaternion arithmetic of `glam`/`bevy` 0.8 is embedded as exact real
arithmetic; each definition mirrors the corresponding Rust item.
-/

open scoped Classical

noncomputable section

/-- Models glam's three-component vector type used throughout the portal code. -/
structure Vec3 where
  x : ℝ
  y : ℝ
  z : ℝ
deriving DecidableEq

namespace Vec3

def add (a b : Vec3) : Vec3 := ⟨a.x + b.x, a.y + b.y, a.z + b.z⟩

def sub (a b : Vec3) : Vec3 := ⟨a.x - b.x, a.y - b.y, a.z - b.z⟩

def negv (a : Vec3) : Vec3 := ⟨-a.x, -a.y, -a.z⟩

/-- Scalar multiplication, the Rust expressions of the shape `v * c` and `c * v`. -/
def smul (c : ℝ) (a : Vec3) : Vec3 := ⟨c * a.x, c * a.y, c * a.z⟩

/-- Componentwise product, the Rust expression `Vec3 * Vec3`. -/
def cmul (a b : Vec3) : Vec3 := ⟨a.x * b.x, a.y * b.y, a.z * b.z⟩

def dot (a b : Vec3) : ℝ := a.x * b.x + a.y * b.y + a.z * b.z

def cross (a b : Vec3) : Vec3 :=
  ⟨a.y * b.z - a.z * b.y, a.z * b.x - a.x * b.z, a.x * b.y - a.y * b.x⟩

/-- Models `Vec3::length`, with `f32::sqrt` idealised as the real square root. -/
def length (a : Vec3) : ℝ := Real.sqrt (a.dot a)

/-- Models `Vec3::normalize`: multiplication by the reciprocal of the length. -/
def normalize (a : Vec3) : Vec3 := smul (a.length)⁻¹ a

/-- Models `Vec3::abs` (componentwise absolute value). -/
def absv (a : Vec3) : Vec3 := ⟨|a.x|, |a.y|, |a.z|⟩

/-- Models `Vec3::abs_diff_eq(rhs, eps)`: all components differ by at most `eps`. -/
def abs_diff_eq (a b : Vec3) (eps : ℝ) : Prop :=
  |a.x - b.x| ≤ eps ∧ |a.y - b.y| ≤ eps ∧ |a.z - b.z| ≤ eps

/-- Models `Vec3::project_onto_normalized(rhs)`, which is `rhs * self.dot(rhs)`. -/
def project_onto_normalized (a n : Vec3) : Vec3 := smul (a.dot n) n

def zero : Vec3 := ⟨0, 0, 0⟩

def one : Vec3 := ⟨1, 1, 1⟩

/-- Models `Vec3::splat`. -/
def splat (c : ℝ) : Vec3 := ⟨c, c, c⟩

/-- Models `Vec3::Y`. -/
def unitY : Vec3 := ⟨0, 1, 0⟩

/-- Models `Vec3::Z`. -/
def unitZ : Vec3 := ⟨0, 0, 1⟩

instance : Add Vec3 := ⟨add⟩

instance : Sub Vec3 := ⟨sub⟩

instance : Neg Vec3 := ⟨negv⟩

instance : SMul ℝ Vec3 := ⟨smul⟩

theorem add_def (a b : Vec3) : a + b = ⟨a.x + b.x, a.y + b.y, a.z + b.z⟩ := rfl

theorem sub_def (a b : Vec3) : a - b = ⟨a.x - b.x, a.y - b.y, a.z - b.z⟩ := rfl

theorem neg_def (a : Vec3) : -a = ⟨-a.x, -a.y, -a.z⟩ := rfl

theorem smul_def (c : ℝ) (a : Vec3) : c • a = ⟨c * a.x, c * a.y, c * a.z⟩ := rfl

theorem ext_iff {a b : Vec3} : a = b ↔ a.x = b.x ∧ a.y = b.y ∧ a.z = b.z := by
  constructor
  · rintro rfl; exact ⟨rfl, rfl, rfl⟩
  · rintro ⟨h1, h2, h3⟩; cases a; cases b; simp_all

end Vec3

/-- Models glam's quaternion type (`x`, `y`, `z` imaginary parts, `w` real part). -/
structure Quat where
  x : ℝ
  y : ℝ
  z : ℝ
  w : ℝ
deriving DecidableEq

namespace Quat

/-- Models glam's quaternion product (Hamilton product in glam's component order). -/
def mul (a b : Quat) : Quat :=
  ⟨a.w * b.x + a.x * b.w + a.y * b.z - a.z * b.y,
   a.w * b.y - a.x * b.z + a.y * b.w + a.z * b.x,
   a.w * b.z + a.x * b.y - a.y * b.x + a.z * b.w,
   a.w * b.w - a.x * b.x - a.y * b.y - a.z * b.z⟩

/-- Models `Quat::conjugate` (equal to the inverse for a unit quaternion). -/
def conj (q : Quat) : Quat := ⟨-q.x, -q.y, -q.z, q.w⟩

/-- Models `Quat::IDENTITY`. -/
def one : Quat := ⟨0, 0, 0, 1⟩

def negq (q : Quat) : Quat := ⟨-q.x, -q.y, -q.z, -q.w⟩

/-- Squared norm of a quaternion; a rotation quaternion has `normSq = 1`. -/
def normSq (q : Quat) : ℝ := q.x ^ 2 + q.y ^ 2 + q.z ^ 2 + q.w ^ 2

/-- A unit (rotation) quaternion. -/
def IsUnit (q : Quat) : Prop := normSq q = 1

/-- Models `Quat::mul_vec3` exactly as glam computes it:
`rhs * (w*w - b.dot(b)) + b * (rhs.dot(b) * 2) + b.cross(rhs) * (w * 2)`
where `b` is the imaginary part. -/
def rotv (q : Quat) (v : Vec3) : Vec3 :=
  let b : Vec3 := ⟨q.x, q.y, q.z⟩
  (q.w * q.w - b.dot b) • v + (v.dot b * 2) • b + (q.w * 2) • b.cross v

/-- Models `Quat::from_rotation_y(angle)`. -/
def from_rotation_y (angle : ℝ) : Quat :=
  ⟨0, Real.sin (angle / 2), 0, Real.cos (angle / 2)⟩

theorem from_rotation_y_pi : from_rotation_y Real.pi = ⟨0, 1, 0, 0⟩ := by
  unfold from_rotation_y
  rw [show Real.pi / 2 = Real.pi / 2 from rfl, Real.sin_pi_div_two, Real.cos_pi_div_two]

theorem mul_assoc' (a b c : Quat) : (a.mul b).mul c = a.mul (b.mul c) := by
  cases a; cases b; cases c
  simp only [mul, mk.injEq]
  refine ⟨by ring, by ring, by ring, by ring⟩

theorem conj_mul (a b : Quat) : (a.mul b).conj = b.conj.mul a.conj := by
  cases a; cases b
  simp only [mul, conj, mk.injEq]
  refine ⟨by ring, by ring, by ring, by ring⟩

theorem conj_mul_self (q : Quat) : q.conj.mul q = ⟨0, 0, 0, normSq q⟩ := by
  cases q
  simp only [mul, conj, normSq, mk.injEq]
  refine ⟨by ring, by ring, by ring, by ring⟩

theorem mul_conj_self (q : Quat) : q.mul q.conj = ⟨0, 0, 0, normSq q⟩ := by
  cases q
  simp only [mul, conj, normSq, mk.injEq]
  refine ⟨by ring, by ring, by ring, by ring⟩

theorem rotv_comp (p q : Quat) (v : Vec3) : rotv p (rotv q v) = rotv (p.mul q) v := by
  cases p; cases q; cases v
  simp only [rotv, mul, Vec3.dot, Vec3.cross, Vec3.smul_def, Vec3.add_def, Vec3.mk.injEq]
  refine ⟨by ring, by ring, by ring⟩

theorem rotv_scalar (c : ℝ) (v : Vec3) : rotv ⟨0, 0, 0, c⟩ v = (c * c) • v := by
  cases v
  simp only [rotv, Vec3.dot, Vec3.cross, Vec3.smul_def, Vec3.add_def, Vec3.mk.injEq]
  refine ⟨by ring, by ring, by ring⟩

theorem rotv_one (v : Vec3) : rotv one v = v := by
  cases v
  simp only [rotv, one, Vec3.dot, Vec3.cross, Vec3.smul_def, Vec3.add_def, Vec3.mk.injEq]
  refine ⟨by ring, by ring, by ring⟩

theorem rotv_add (q : Quat) (a b : Vec3) : rotv q (a + b) = rotv q a + rotv q b := by
  cases q; cases a; cases b
  simp only [rotv, Vec3.dot, Vec3.cross, Vec3.smul_def, Vec3.add_def, Vec3.mk.injEq]
  refine ⟨by ring, by ring, by ring⟩

theorem rotv_smul (q : Quat) (c : ℝ) (a : Vec3) : rotv q (c • a) = c • rotv q a := by
  cases q; cases a
  simp only [rotv, Vec3.dot, Vec3.cross, Vec3.smul_def, Vec3.add_def, Vec3.mk.injEq]
  refine ⟨by ring, by ring, by ring⟩

theorem rotv_neg (q : Quat) (a : Vec3) : rotv q (-a) = -(rotv q a) := by
  cases q; cases a
  simp only [rotv, Vec3.dot, Vec3.cross, Vec3.smul_def, Vec3.add_def, Vec3.neg_def,
    Vec3.mk.injEq]
  refine ⟨by ring, by ring, by ring⟩

theorem rotv_zero (q : Quat) : rotv q Vec3.zero = Vec3.zero := by
  cases q
  simp only [rotv, Vec3.zero, Vec3.dot, Vec3.cross, Vec3.smul_def, Vec3.add_def,
    Vec3.mk.injEq]
  refine ⟨by ring, by ring, by ring⟩

theorem rotv_negq (q : Quat) (v : Vec3) : rotv (negq q) v = rotv q v := by
  cases q; cases v
  simp only [rotv, negq, Vec3.dot, Vec3.cross, Vec3.smul_def, Vec3.add_def, Vec3.mk.injEq]
  refine ⟨by ring, by ring, by ring⟩

theorem dot_rotv (q : Quat) (a b : Vec3) :
    (rotv q a).dot (rotv q b) = normSq q ^ 2 * a.dot b := by
  cases q; cases a; cases b
  simp only [rotv, normSq, Vec3.dot, Vec3.cross, Vec3.smul_def, Vec3.add_def]
  ring

theorem rotv_conj_rotv (q : Quat) (h : q.IsUnit) (v : Vec3) :
    rotv q.conj (rotv q v) = v := by
  rw [rotv_comp, conj_mul_self]
  rw [show (⟨0, 0, 0, normSq q⟩ : Quat) = ⟨0, 0, 0, 1⟩ from by rw [h]]
  exact rotv_one v

theorem rotv_rotv_conj (q : Quat) (h : q.IsUnit) (v : Vec3) :
    rotv q (rotv q.conj v) = v := by
  rw [rotv_comp, mul_conj_self]
  rw [show (⟨0, 0, 0, normSq q⟩ : Quat) = ⟨0, 0, 0, 1⟩ from by rw [h]]
  exact rotv_one v

/-- Length is preserved by a unit-quaternion rotation. -/
theorem length_rotv (q : Quat) (h : q.IsUnit) (v : Vec3) :
    (rotv q v).length = v.length := by
  unfold Vec3.length
  rw [dot_rotv, h, one_pow, one_mul]

end Quat

/-- Models bevy 0.8's `Transform` (translation, rotation, scale).  The portal code
also reads `GlobalTransform`s; for the uniform-scale rigid transforms the portal
systems deal in, a propagated global transform carries the same
translation/rotation/scale data, so both are modelled by this structure. -/
structure Transform where
  translation : Vec3
  rotation : Quat
  scale : Vec3

namespace Transform

/-- Models `Transform::local_z`: the rotated `Vec3::Z`. -/
def local_z (t : Transform) : Vec3 := Quat.rotv t.rotation Vec3.unitZ

/-- Models `Transform::forward` (`-local_z`). -/
def forward (t : Transform) : Vec3 := -t.local_z

/-- Models `Transform::back` (`local_z`). -/
def back (t : Transform) : Vec3 := t.local_z

/-- Models `Transform::local_y`, which `Transform::up` returns. -/
def up (t : Transform) : Vec3 := Quat.rotv t.rotation Vec3.unitY

/-- Models bevy 0.8's `Transform::mul_vec3`: rotate, then scale (componentwise),
then translate. -/
def mul_vec3 (t : Transform) (v : Vec3) : Vec3 :=
  t.scale.cmul (Quat.rotv t.rotation v) + t.translation

/-- Models `Transform::mul_transform` (the `*` operator on transforms). -/
def mul_transform (a b : Transform) : Transform :=
  ⟨a.mul_vec3 b.translation, a.rotation.mul b.rotation, a.scale.cmul b.scale⟩

/-- Models `Transform::from_translation`. -/
def from_translation (v : Vec3) : Transform := ⟨v, Quat.one, Vec3.one⟩

/-- Models `Transform::from_rotation`. -/
def from_rotation (q : Quat) : Transform := ⟨Vec3.zero, q, Vec3.one⟩

/-- Models `Transform::with_scale`. -/
def with_scale (t : Transform) (s : Vec3) : Transform := ⟨t.translation, t.rotation, s⟩

/-- Models `Transform::IDENTITY`. -/
def identity : Transform := ⟨Vec3.zero, Quat.one, Vec3.one⟩

/-- Models `Transform::from_matrix(t.compute_matrix().inverse())` for the only
shape of transform the portal code inverts: a uniform-scale rigid transform
(unit rotation quaternion, scale `splat s`, `s ≠ 0`).  For such a transform the
matrix inverse is again a uniform-scale rigid transform, whose exact
translation/rotation/scale decomposition is written out here. -/
def invUniform (t : Transform) : Transform :=
  ⟨(-(t.scale.x)⁻¹) • Quat.rotv t.rotation.conj t.translation,
   t.rotation.conj,
   Vec3.splat (t.scale.x)⁻¹⟩

end Transform

namespace Vec3

theorem cmul_splat (c : ℝ) (v : Vec3) : (splat c).cmul v = c • v := rfl

theorem cmul_one (v : Vec3) : Vec3.one.cmul v = v := by
  cases v
  simp only [cmul, one, smul_def, mk.injEq]
  refine ⟨by ring, by ring, by ring⟩

theorem splat_cmul_splat (a b : ℝ) : (splat a).cmul (splat b) = splat (a * b) := rfl

theorem one_smul' (v : Vec3) : (1 : ℝ) • v = v := by
  cases v
  simp only [smul_def, mk.injEq]
  refine ⟨by ring, by ring, by ring⟩

theorem splat_one : splat 1 = Vec3.one := rfl

end Vec3

namespace Transform

theorem forward_eq_neg_back (t : Transform) : t.forward = -t.back := rfl

/-- Composing with `mul_transform` and then applying `mul_vec3` agrees with
applying the two `mul_vec3` actions in turn, provided the right-hand factor has
uniform scale (in bevy 0.8 `mul_vec3` scales after rotating, so the right
factor's scale must commute with the left factor's rotation). -/
theorem mul_vec3_mul_transform (a b : Transform) (σ : ℝ) (hb : b.scale = Vec3.splat σ)
    (v : Vec3) : (a.mul_transform b).mul_vec3 v = a.mul_vec3 (b.mul_vec3 v) := by
  obtain ⟨at_, ar, as_⟩ := a
  obtain ⟨bt, br, bs⟩ := b
  simp only at hb
  subst hb
  cases at_; cases ar; cases as_; cases bt; cases br; cases v
  simp only [mul_transform, mul_vec3, Quat.rotv, Quat.mul, Vec3.splat, Vec3.cmul,
    Vec3.dot, Vec3.cross, Vec3.smul_def, Vec3.add_def, Vec3.mk.injEq]
  refine ⟨by ring, by ring, by ring⟩

theorem invUniform_mul_vec3 (t : Transform) (σ : ℝ) (ht : t.scale = Vec3.splat σ)
    (hσ : σ ≠ 0) (hu : t.rotation.IsUnit) (v : Vec3) :
    t.invUniform.mul_vec3 (t.mul_vec3 v) = v := by
  obtain ⟨tt, tr, ts⟩ := t
  simp only at ht
  subst ht
  simp only [invUniform, mul_vec3] at *
  simp only [Vec3.cmul_splat]
  rw [show (Vec3.splat σ).x = σ from rfl]
  rw [Quat.rotv_add, Quat.rotv_smul, Quat.rotv_conj_rotv tr hu]
  generalize Quat.rotv tr.conj tt = w
  cases v; cases w; cases tt
  simp only [Vec3.smul_def, Vec3.add_def, Vec3.mk.injEq]
  refine ⟨?_, ?_, ?_⟩ <;> field_simp

theorem mul_vec3_invUniform (t : Transform) (σ : ℝ) (ht : t.scale = Vec3.splat σ)
    (hσ : σ ≠ 0) (hu : t.rotation.IsUnit) (v : Vec3) :
    t.mul_vec3 (t.invUniform.mul_vec3 v) = v := by
  obtain ⟨tt, tr, ts⟩ := t
  simp only at ht
  subst ht
  simp only [invUniform, mul_vec3] at *
  simp only [Vec3.cmul_splat]
  rw [show (Vec3.splat σ).x = σ from rfl]
  rw [Quat.rotv_add, Quat.rotv_smul, Quat.rotv_smul, Quat.rotv_rotv_conj tr hu,
    Quat.rotv_rotv_conj tr hu]
  cases v; cases tt
  simp only [Vec3.smul_def, Vec3.add_def, Vec3.mk.injEq]
  refine ⟨?_, ?_, ?_⟩ <;> field_simp

end Transform

/-- Models the `PORTAL_MESH_DEPTH` constant. -/
def PORTAL_MESH_DEPTH : ℝ := 0.5

/-- Models `geometry::portal_to_portal`: the composed transform carrying a pose
at the render portal's clip plane to the linked portal's clip plane, with the
180-degree turn about Y inserted between the two portal frames. -/
def portal_to_portal (render_portal_transform linked_portal_transform : Transform) :
    Transform :=
  let render_clip_to_local :=
    Transform.from_translation (PORTAL_MESH_DEPTH • render_portal_transform.forward)
  let linked_local_to_clip :=
    Transform.from_translation (PORTAL_MESH_DEPTH • linked_portal_transform.back)
  let rot := Transform.from_rotation (Quat.from_rotation_y Real.pi)
  ((((linked_local_to_clip.mul_transform linked_portal_transform).mul_transform
      rot).mul_transform
        (Transform.invUniform render_portal_transform)).mul_transform render_clip_to_local)

/-- Models glam's `Vec4`. -/
structure Vec4 where
  x : ℝ
  y : ℝ
  z : ℝ
  w : ℝ

/-- Models `PortalPlugin::get_portal_plane`. -/
def get_portal_plane (trf : Transform) : Vec4 :=
  let normal := trf.back
  let position := trf.translation + PORTAL_MESH_DEPTH • normal
  ⟨normal.x, normal.y, normal.z, -(normal.dot position)⟩

/-- Modelled from the spec: the plane `get_portal_plane` is claimed to return,
with the clip point taken as the portal origin offset by mesh-depth along the
portal's forward direction (the code instead offsets along the backward-facing
normal `trf.back`). -/
def get_portal_plane_spec (trf : Transform) : Vec4 :=
  let normal := trf.back
  let position := trf.translation + PORTAL_MESH_DEPTH • trf.forward
  ⟨normal.x, normal.y, normal.z, -(normal.dot position)⟩

/-- Models the collision-group bit constants of `plugins/physics` (`Group::GROUP_n`
is the bit `2^(n-1)`). -/
def WALLS_GROUP : ℕ := 1

def PROPS_GROUP : ℕ := 2

def PORTAL_GROUP : ℕ := 4

def PLAYER_GROUP : ℕ := 8

def RAYCAST_GROUP : ℕ := 16

def GROUND_GROUP : ℕ := 32

/-- Models `ALL_GROUPS` (`Group::ALL`, all 32 bits set). -/
def ALL_GROUPS : ℕ := 4294967295

/-- Models the slice of `RapierContext::cast_ray` that the portal code uses: a
query (origin, direction, max time of impact, solid flag, interaction groups
(memberships, filter)) answered by the physics engine with an optional
(entity, hit distance). -/
def CastRayOracle : Type := Vec3 → Vec3 → ℝ → Bool → ℕ × ℕ → Option (ℕ × ℝ)

/-- Models `geometry::adjust_portal_origin_to_obstacles`: nudges a candidate
portal placement away from obstacles found by four short ray casts, first
down/up, then left/right. -/
def adjust_portal_origin_to_obstacles (base_location impact_normal up : Vec3)
    (rapier : CastRayOracle) : Vec3 :=
  let right := up.cross impact_normal
  let left := -right
  let down := -up
  let vertically_corrected :=
    match rapier base_location down 1 false (RAYCAST_GROUP, WALLS_GROUP ||| GROUND_GROUP) with
    | some (_entity, distance) => base_location + (1 - distance) • up
    | none =>
      match rapier base_location up 1 false (RAYCAST_GROUP, WALLS_GROUP ||| GROUND_GROUP) with
      | some (_entity, distance) => base_location + (1 - distance) • down
      | none => base_location
  match rapier vertically_corrected left 1 false
      (RAYCAST_GROUP, WALLS_GROUP ||| GROUND_GROUP) with
  | some (_entity, distance) => vertically_corrected + (1 - distance) • right
  | none =>
    match rapier vertically_corrected right 1 false
        (RAYCAST_GROUP, WALLS_GROUP ||| GROUND_GROUP) with
    | some (_entity, distance) => vertically_corrected + (1 - distance) • left
    | none => vertically_corrected

/-- Models glam's `Mat3` given by its three column vectors. -/
structure Mat3 where
  x_axis : Vec3
  y_axis : Vec3
  z_axis : Vec3

/-- Models `Quat::from_mat3` (glam's branchy basis-to-quaternion conversion,
`from_rotation_axes` on the three columns). -/
def Quat.from_mat3 (m : Mat3) : Quat :=
  let m00 := m.x_axis.x
  let m01 := m.x_axis.y
  let m02 := m.x_axis.z
  let m10 := m.y_axis.x
  let m11 := m.y_axis.y
  let m12 := m.y_axis.z
  let m20 := m.z_axis.x
  let m21 := m.z_axis.y
  let m22 := m.z_axis.z
  if m22 ≤ 0 then
    let dif10 := m11 - m00
    let omm22 := 1 - m22
    if dif10 ≤ 0 then
      let four_xsq := omm22 - dif10
      let inv4x := 1 / 2 / Real.sqrt four_xsq
      ⟨four_xsq * inv4x, (m01 + m10) * inv4x, (m02 + m20) * inv4x, (m12 - m21) * inv4x⟩
    else
      let four_ysq := omm22 + dif10
      let inv4y := 1 / 2 / Real.sqrt four_ysq
      ⟨(m01 + m10) * inv4y, four_ysq * inv4y, (m12 + m21) * inv4y, (m20 - m02) * inv4y⟩
  else
    let sum10 := m11 + m00
    let opm22 := 1 + m22
    if sum10 ≤ 0 then
      let four_zsq := opm22 - sum10
      let inv4z := 1 / 2 / Real.sqrt four_zsq
      ⟨(m02 + m20) * inv4z, (m12 + m21) * inv4z, four_zsq * inv4z, (m01 - m10) * inv4z⟩
    else
      let four_wsq := opm22 + sum10
      let inv4w := 1 / 2 / Real.sqrt four_wsq
      ⟨(m12 - m21) * inv4w, (m20 - m02) * inv4w, (m01 - m10) * inv4w, four_wsq * inv4w⟩

/-- Models bevy 0.8's `Transform::look_at`: forward is the normalized vector
from the target to the translation (negative-Z convention), and the rotation is
rebuilt from the resulting orthonormal basis. -/
def Transform.look_at (t : Transform) (target up_vec : Vec3) : Transform :=
  let fwd := (t.translation - target).normalize
  let right := (up_vec.cross fwd).normalize
  let upn := fwd.cross right
  ⟨t.translation, Quat.from_mat3 ⟨right, upn, fwd⟩, t.scale⟩

/-- Result of `adjust_player_camera_on_teleport`: the Rust function mutates the
player root transform, the camera-anchor local transform and the controller's
stored pitch; the model returns their final values. -/
structure PlayerAdjustResult where
  player : Transform
  camera_local : Transform
  pitch : ℝ

/-- Models `geometry::adjust_player_camera_on_teleport`. -/
def adjust_player_camera_on_teleport (teleport camera_global camera_local : Transform)
    (player_entity : ℕ) (player : Transform) (controller_pitch : ℝ) :
    PlayerAdjustResult :=
  let player1 := teleport.mul_transform player
  if ¬ Vec3.abs_diff_eq player1.up Vec3.unitY 0.001 then
    let new_camera_pos := teleport.mul_vec3 camera_global.translation
    let new_look_vector := Quat.rotv teleport.rotation camera_local.forward
    let target_point := player1.translation + new_look_vector
    let player2 : Transform := ⟨player1.translation, Quat.one, player1.scale⟩
    let horiz_plane_look_dir : Vec3 := ⟨new_look_vector.x, 0, new_look_vector.z⟩
    let player3 :=
      if horiz_plane_look_dir.length > 0.001 then
        player2.look_at (player2.translation + horiz_plane_look_dir) Vec3.unitY
      else player2
    let player_mid_plane_look_dir : Vec3 := ⟨0, new_look_vector.y, new_look_vector.z⟩
    if player_mid_plane_look_dir.length > 0.001 then
      let mid_dir := player_mid_plane_look_dir.normalize
      let camera2 := camera_local.look_at
        (player3.translation + (0.75 : ℝ) • Vec3.unitY + mid_dir) Vec3.unitY
      let pitch2 := Real.arcsin (camera2.forward.dot Vec3.unitY)
      ⟨player3, camera2, pitch2⟩
    else ⟨player3, camera_local, controller_pitch⟩
  else ⟨player1, camera_local, controller_pitch⟩

/-- Models rapier's `Velocity` component (linear and angular velocity). -/
structure Velocity where
  linvel : Vec3
  angvel : Vec3

/-- Models the `PROXIMITY_THRESHOLD` constant of `teleport_props`. -/
def PROXIMITY_THRESHOLD : ℝ := 1.0

/-- Models one iteration of the loop body of `teleport_props` for a single
teleportable entity: given the two portal transforms and the entity's transform
and velocity, returns their updated values.  (The memoisation of the composed
transform in the Rust loop caches a value that is recomputed identically here.) -/
def teleport_props_step (portal_a_trf portal_b_trf obj_transform : Transform)
    (velocity : Velocity) : Transform × Velocity :=
  let a_clip_to_object := obj_transform.translation - portal_a_trf.translation
    + PORTAL_MESH_DEPTH • portal_a_trf.forward
  let b_clip_to_object := obj_transform.translation - portal_b_trf.translation
    + PORTAL_MESH_DEPTH • portal_b_trf.forward
  if a_clip_to_object.length < PROXIMITY_THRESHOLD then
    if a_clip_to_object.dot portal_a_trf.forward > 0 then
      let transform := portal_to_portal portal_a_trf portal_b_trf
      ⟨transform.mul_transform obj_transform,
       ⟨Quat.rotv transform.rotation velocity.linvel,
        Quat.rotv transform.rotation velocity.angvel⟩⟩
    else ⟨obj_transform, velocity⟩
  else
    if b_clip_to_object.length < PROXIMITY_THRESHOLD ∧
        b_clip_to_object.dot portal_b_trf.forward > 0 then
      let transform := portal_to_portal portal_b_trf portal_a_trf
      ⟨transform.mul_transform obj_transform,
       ⟨Quat.rotv transform.rotation velocity.linvel,
        Quat.rotv transform.rotation velocity.angvel⟩⟩
    else ⟨obj_transform, velocity⟩

/-- Models the `PLAYER_PROXIMITY_THRESHOLD` constant of `teleport_player`. -/
def PLAYER_PROXIMITY_THRESHOLD : ℝ := 2.3

/-- Models the `MIN_OUTBOUND_SPEED` constant of `teleport_player`. -/
def MIN_OUTBOUND_SPEED : ℝ := 3

/-- Result of the player teleport step: player transform, velocity, camera-anchor
local transform, stored pitch. -/
structure PlayerStepResult where
  player : Transform
  velocity : Velocity
  camera_local : Transform
  pitch : ℝ

/-- Models the body of `teleport_player` for the single player entity. -/
def teleport_player_step (portal_a_trf portal_b_trf player_transform : Transform)
    (velocity : Velocity) (camera_local camera_global : Transform)
    (player_entity : ℕ) (controller_pitch : ℝ) : PlayerStepResult :=
  let a_clip_to_player := player_transform.translation - portal_a_trf.translation
    + PORTAL_MESH_DEPTH • portal_a_trf.forward
  let b_clip_to_player := player_transform.translation - portal_b_trf.translation
    + PORTAL_MESH_DEPTH • portal_b_trf.forward
  if a_clip_to_player.length < PLAYER_PROXIMITY_THRESHOLD then
    if a_clip_to_player.dot portal_a_trf.forward > 0 then
      let a_to_b := portal_to_portal portal_a_trf portal_b_trf
      let adj := adjust_player_camera_on_teleport a_to_b camera_global camera_local
        player_entity player_transform controller_pitch
      let output_direction := portal_b_trf.back
      let transformed_velocity := Quat.rotv a_to_b.rotation velocity.linvel
      let linvel1 := transformed_velocity.length • portal_b_trf.back
      let linvel2 :=
        if linvel1.dot output_direction < MIN_OUTBOUND_SPEED then
          linvel1 + MIN_OUTBOUND_SPEED • output_direction
        else linvel1
      ⟨adj.player, ⟨linvel2, velocity.angvel⟩, adj.camera_local, adj.pitch⟩
    else ⟨player_transform, velocity, camera_local, controller_pitch⟩
  else
    if b_clip_to_player.length < PLAYER_PROXIMITY_THRESHOLD then
      if b_clip_to_player.dot portal_b_trf.forward > 0 then
        let b_to_a := portal_to_portal portal_b_trf portal_a_trf
        let adj := adjust_player_camera_on_teleport b_to_a camera_global camera_local
          player_entity player_transform controller_pitch
        let output_direction := portal_a_trf.back
        let transformed_velocity := Quat.rotv b_to_a.rotation velocity.linvel
        let linvel1 := transformed_velocity.length • portal_a_trf.back
        let linvel2 :=
          if linvel1.dot output_direction < MIN_OUTBOUND_SPEED then
            linvel1 + MIN_OUTBOUND_SPEED • output_direction
          else linvel1
        ⟨adj.player, ⟨linvel2, velocity.angvel⟩, adj.camera_local, adj.pitch⟩
      else ⟨player_transform, velocity, camera_local, controller_pitch⟩
    else ⟨player_transform, velocity, camera_local, controller_pitch⟩

/-- Models rapier's `CollisionEvent` (the flags argument is unused by the
portal code and omitted). -/
inductive CollisionEvent where
  | Started (collider_a collider_b : ℕ)
  | Stopped (collider_a collider_b : ℕ)

/-- Models the `PortalOrientation` enum. -/
inductive PortalOrientation where
  | Horizontal
  | Other
deriving DecidableEq

/-- Models `Portal::filter_collisions`. -/
def filter_collisions (orientation : PortalOrientation) : ℕ :=
  match orientation with
  | .Horizontal => PLAYER_GROUP ||| PROPS_GROUP ||| PORTAL_GROUP ||| WALLS_GROUP
  | .Other => PLAYER_GROUP ||| PROPS_GROUP ||| PORTAL_GROUP ||| GROUND_GROUP

/-- Models `Portal::restore_collisions`. -/
def restore_collisions (_orientation : PortalOrientation) : ℕ := ALL_GROUPS

/-- Models one iteration of the event loop of
`turn_off_collisions_with_static_geo_when_in_portal`.  `filters` maps each
entity to its current collision-groups filter word; `teleportable e` tells
whether the `teleportable_query.get_mut(e)` lookup succeeds (the entity carries
`PortalTeleport`).  Note the `Stopped` arm of the Rust code restores the filter
of `collider_b` (for portal A) or `collider_a` (for portal B) without checking
which collider is the portal. -/
def process_collision_event (portal_a_entity : ℕ) (portal_a : PortalOrientation)
    (portal_b_entity : ℕ) (portal_b : PortalOrientation) (teleportable : ℕ → Bool)
    (filters : ℕ → ℕ) : CollisionEvent → (ℕ → ℕ)
  | .Started collider_a collider_b =>
    if collider_a = portal_a_entity ∨ collider_b = portal_a_entity then
      let maybe_teleportable :=
        if collider_a = portal_a_entity then collider_b else collider_a
      if teleportable maybe_teleportable then
        Function.update filters maybe_teleportable (filter_collisions portal_a)
      else filters
    else if collider_a = portal_b_entity ∨ collider_b = portal_b_entity then
      let maybe_teleportable :=
        if collider_a = portal_b_entity then collider_b else collider_a
      if teleportable maybe_teleportable then
        Function.update filters maybe_teleportable (filter_collisions portal_b)
      else filters
    else filters
  | .Stopped collider_a collider_b =>
    if collider_a = portal_a_entity ∨ collider_b = portal_a_entity then
      if teleportable collider_b then
        Function.update filters collider_b (restore_collisions portal_a)
      else filters
    else if collider_a = portal_b_entity ∨ collider_b = portal_b_entity then
      if teleportable collider_a then
        Function.update filters collider_a (restore_collisions portal_b)
      else filters
    else filters

/-- Models a run of `turn_off_collisions_with_static_geo_when_in_portal` over
the tick's drained collision-event queue. -/
def turn_off_collisions_with_static_geo_when_in_portal (portal_a_entity : ℕ)
    (portal_a : PortalOrientation) (portal_b_entity : ℕ) (portal_b : PortalOrientation)
    (teleportable : ℕ → Bool) (filters : ℕ → ℕ) (events : List CollisionEvent) :
    ℕ → ℕ :=
  events.foldl
    (fun f ev =>
      process_collision_event portal_a_entity portal_a portal_b_entity portal_b
        teleportable f ev)
    filters

/-- Models rapier's `RayIntersection` (the fields the portal code reads). -/
structure RayIntersection where
  point : Vec3
  normal : Vec3

/-- Models the `Portal` component (camera entity, linked portal, orientation). -/
structure PortalModel where
  camera : Option ℕ
  linked_portal : Option ℕ
  orientation : PortalOrientation

/-- Models the part of `PortalBundle` that `from_ray_impact` computes: the mesh
transform and the portal component (the mesh/material handles and the fixed
collider/sensor data carry no claim-relevant state). -/
structure PortalBundleModel where
  transform : Transform
  portal : PortalModel

/-- Models `PortalBundle::from_ray_impact`. -/
def from_ray_impact (impact : RayIntersection) (player_transform : Transform)
    (other_portal : Option ℕ) (rapier : CastRayOracle) : PortalBundleModel :=
  let Z_FIGHTING_OFFSET : ℝ := 0.001
  let portal_center := impact.point + Z_FIGHTING_OFFSET • impact.normal
  let up_orientation :
      Vec3 × PortalOrientation :=
    if (impact.normal.absv).abs_diff_eq Vec3.unitY 0.001 then
      let forward_to_normal :=
        (player_transform.forward).project_onto_normalized impact.normal
      ⟨(player_transform.forward - forward_to_normal).normalize,
       PortalOrientation.Horizontal⟩
    else
      let y_to_normal := Vec3.unitY.project_onto_normalized impact.normal
      ⟨(Vec3.unitY - y_to_normal).normalize, PortalOrientation.Other⟩
  let adjusted := adjust_portal_origin_to_obstacles portal_center impact.normal
    up_orientation.1 rapier
  let transform1 : Transform := ⟨adjusted, Quat.one, Vec3.one⟩
  let transform2 := transform1.look_at (adjusted - impact.normal) up_orientation.1
  let scaled := transform2.with_scale (Vec3.splat 2)
  let offset_portal : Transform :=
    ⟨scaled.translation + PORTAL_MESH_DEPTH • scaled.forward, scaled.rotation,
     scaled.scale⟩
  ⟨offset_portal, ⟨none, other_portal, up_orientation.2⟩⟩

/-- Result of `PortalPlugin::spawn_portal`: the despawn commands issued (in
order) and the bundle spawned, if any. -/
structure SpawnOutcome where
  despawned : List ℕ
  spawned : Option PortalBundleModel

/-- Models `PortalPlugin::spawn_portal`.  `cast_result` is the value returned by
`rapier.cast_ray_and_get_normal` (the `?` operator returns early on `none`);
`portal_query` is the result of `portal_query.get_single()` for the slot, as the
portal component together with its entity id. -/
def spawn_portal (cast_result : Option (ℕ × RayIntersection))
    (portal_query : Option (PortalModel × ℕ)) (player_transform : Transform)
    (other_portal_entity : Option ℕ) (rapier : CastRayOracle) : SpawnOutcome :=
  match cast_result with
  | none => ⟨[], none⟩
  | some (_entity, impact) =>
    let despawned :=
      match portal_query with
      | some (previous_portal, entity) =>
        (match previous_portal.camera with
         | some cam => [cam]
         | none => []) ++ [entity]
      | none => []
    ⟨despawned,
     some (from_ray_impact impact player_transform other_portal_entity rapier)⟩

namespace Quat

theorem one_mul' (q : Quat) : one.mul q = q := by
  cases q
  simp only [mul, one, mk.injEq]
  refine ⟨by ring, by ring, by ring, by ring⟩

theorem mul_one' (q : Quat) : q.mul one = q := by
  cases q
  simp only [mul, one, mk.injEq]
  refine ⟨by ring, by ring, by ring, by ring⟩

theorem neg_one_mul' (q : Quat) : (Quat.mk 0 0 0 (-1)).mul q = negq q := by
  cases q
  simp only [mul, negq, mk.injEq]
  refine ⟨by ring, by ring, by ring, by ring⟩

/-- The quaternion of the double portal pass: conjugating the 180-degree Y turn
by the two portal rotations collapses to a real scalar quaternion. -/
theorem sandwich_y_pair (p q : Quat) :
    ((p.mul ⟨0, 1, 0, 0⟩).mul q.conj).mul ((q.mul ⟨0, 1, 0, 0⟩).mul p.conj)
      = ⟨0, 0, 0, -(normSq p * normSq q)⟩ := by
  cases p; cases q
  simp only [mul, conj, normSq, mk.injEq]
  refine ⟨by ring, by ring, by ring, by ring⟩

theorem rotv_ypi_ypi (w : Vec3) :
    rotv (from_rotation_y Real.pi) (rotv (from_rotation_y Real.pi) w) = w := by
  rw [rotv_comp, from_rotation_y_pi]
  rw [show (Quat.mk 0 1 0 0).mul (Quat.mk 0 1 0 0) = Quat.mk 0 0 0 (-1) from by
    simp only [mul, mk.injEq]; norm_num]
  rw [rotv_scalar]
  rw [show ((-1 : ℝ) * -1) = 1 from by norm_num]
  exact Vec3.one_smul' w

end Quat

namespace Vec3

theorem add_zero' (v : Vec3) : v + Vec3.zero = v := by
  cases v
  simp only [add_def, zero, mk.injEq]
  refine ⟨by ring, by ring, by ring⟩

theorem cmul_one_right (v : Vec3) : v.cmul Vec3.one = v := by
  cases v
  simp only [cmul, one, mk.injEq]
  refine ⟨by ring, by ring, by ring⟩

end Vec3

namespace Transform

theorem add_smul_back_forward (t : Transform) (c : ℝ) (x : Vec3) :
    x + c • t.back + c • t.forward = x := by
  unfold forward back
  generalize t.local_z = w
  cases x; cases w
  simp only [Vec3.neg_def, Vec3.smul_def, Vec3.add_def, Vec3.mk.injEq]
  refine ⟨by ring, by ring, by ring⟩

theorem add_smul_forward_back (t : Transform) (c : ℝ) (x : Vec3) :
    x + c • t.forward + c • t.back = x := by
  unfold forward back
  generalize t.local_z = w
  cases x; cases w
  simp only [Vec3.neg_def, Vec3.smul_def, Vec3.add_def, Vec3.mk.injEq]
  refine ⟨by ring, by ring, by ring⟩

theorem from_translation_mul_vec3 (u w : Vec3) :
    (Transform.from_translation u).mul_vec3 w = w + u := by
  simp only [Transform.from_translation, Transform.mul_vec3, Quat.rotv_one, Vec3.cmul_one]

theorem from_rotation_mul_vec3 (q : Quat) (w : Vec3) :
    (Transform.from_rotation q).mul_vec3 w = Quat.rotv q w := by
  simp only [Transform.from_rotation, Transform.mul_vec3, Vec3.cmul_one, Vec3.add_zero']

end Transform

theorem portal_to_portal_scale (a b : Transform) (σa σb : ℝ)
    (ha : a.scale = Vec3.splat σa) (hb : b.scale = Vec3.splat σb) :
    (portal_to_portal a b).scale = Vec3.splat (σb * σa⁻¹) := by
  simp only [portal_to_portal, Transform.mul_transform, Transform.from_translation,
    Transform.from_rotation, Transform.invUniform, ha, hb]
  simp only [Vec3.cmul, Vec3.one, Vec3.splat, Vec3.mk.injEq]
  refine ⟨by ring, by ring, by ring⟩

theorem portal_to_portal_rotation (a b : Transform) :
    (portal_to_portal a b).rotation
      = (b.rotation.mul (Quat.from_rotation_y Real.pi)).mul a.rotation.conj := by
  simp only [portal_to_portal, Transform.mul_transform, Transform.from_translation,
    Transform.from_rotation, Transform.invUniform]
  rw [Quat.one_mul', Quat.mul_one']

theorem portal_to_portal_mul_vec3 (a b : Transform) (σa σb : ℝ)
    (ha : a.scale = Vec3.splat σa) (hb : b.scale = Vec3.splat σb) (v : Vec3) :
    (portal_to_portal a b).mul_vec3 v
      = b.mul_vec3 (Quat.rotv (Quat.from_rotation_y Real.pi)
          (a.invUniform.mul_vec3 (v + PORTAL_MESH_DEPTH • a.forward)))
        + PORTAL_MESH_DEPTH • b.back := by
  show (((((Transform.from_translation (PORTAL_MESH_DEPTH • b.back)).mul_transform
      b).mul_transform (Transform.from_rotation (Quat.from_rotation_y
        Real.pi))).mul_transform a.invUniform).mul_transform
          (Transform.from_translation (PORTAL_MESH_DEPTH • a.forward))).mul_vec3 v = _
  rw [Transform.mul_vec3_mul_transform _ _ 1 rfl v]
  rw [Transform.mul_vec3_mul_transform _ _ ((a.scale.x)⁻¹) rfl]
  rw [Transform.mul_vec3_mul_transform _ _ 1 rfl]
  rw [Transform.mul_vec3_mul_transform _ _ σb hb]
  rw [Transform.from_translation_mul_vec3, Transform.from_rotation_mul_vec3,
    Transform.from_translation_mul_vec3]

theorem portal_roundtrip_mul_vec3 (P Q : Transform) (σp σq : ℝ)
    (hpu : P.rotation.IsUnit) (hqu : Q.rotation.IsUnit)
    (hps : P.scale = Vec3.splat σp) (hqs : Q.scale = Vec3.splat σq)
    (hp0 : σp ≠ 0) (hq0 : σq ≠ 0) (v : Vec3) :
    ((portal_to_portal Q P).mul_transform (portal_to_portal P Q)).mul_vec3 v = v := by
  rw [Transform.mul_vec3_mul_transform _ _ (σq * σp⁻¹)
    (portal_to_portal_scale P Q σp σq hps hqs) v]
  rw [portal_to_portal_mul_vec3 P Q σp σq hps hqs v]
  rw [portal_to_portal_mul_vec3 Q P σq σp hqs hps]
  rw [Transform.add_smul_back_forward]
  rw [Transform.invUniform_mul_vec3 Q σq hqs hq0 hqu]
  rw [Quat.rotv_ypi_ypi]
  rw [Transform.mul_vec3_invUniform P σp hps hp0 hpu]
  exact Transform.add_smul_forward_back P PORTAL_MESH_DEPTH v

/-- C1: for two uniform-scale rigid portal poses `P` and `Q`, the composition of
`portal_to_portal Q P` after `portal_to_portal P Q` is the identity transform on
poses: applied to an arbitrary pose `S` it returns `S`'s translation and scale
exactly and a rotation with the identical action on vectors (the composed
rotation quaternion is the negated identity, which represents the same
orientation — the 180-degree Y convention is self-inverse), and as a point map
it is the identity. -/
theorem portal_roundtrip_identity (P Q S : Transform) (σp σq : ℝ)
    (hpu : P.rotation.IsUnit) (hqu : Q.rotation.IsUnit)
    (hps : P.scale = Vec3.splat σp) (hqs : Q.scale = Vec3.splat σq)
    (hp0 : σp ≠ 0) (hq0 : σq ≠ 0) :
    ((((portal_to_portal Q P).mul_transform (portal_to_portal P Q)).mul_transform
        S).translation = S.translation) ∧
    ((((portal_to_portal Q P).mul_transform (portal_to_portal P Q)).mul_transform
        S).scale = S.scale) ∧
    (∀ v, Quat.rotv ((((portal_to_portal Q P).mul_transform
        (portal_to_portal P Q)).mul_transform S).rotation) v
      = Quat.rotv S.rotation v) ∧
    (∀ v, ((portal_to_portal Q P).mul_transform (portal_to_portal P Q)).mul_vec3 v
      = v) := by
  have haction := portal_roundtrip_mul_vec3 P Q σp σq hpu hqu hps hqs hp0 hq0
  have hrot : ((portal_to_portal Q P).mul_transform
      (portal_to_portal P Q)).rotation = Quat.mk 0 0 0 (-1) := by
    show ((portal_to_portal Q P).rotation).mul ((portal_to_portal P Q).rotation)
      = Quat.mk 0 0 0 (-1)
    rw [portal_to_portal_rotation, portal_to_portal_rotation, Quat.from_rotation_y_pi]
    rw [Quat.sandwich_y_pair P.rotation Q.rotation, hpu, hqu]
    norm_num
  have hscale : ((portal_to_portal Q P).mul_transform
      (portal_to_portal P Q)).scale = Vec3.one := by
    show ((portal_to_portal Q P).scale).cmul ((portal_to_portal P Q).scale) = Vec3.one
    rw [portal_to_portal_scale Q P σq σp hqs hps,
      portal_to_portal_scale P Q σp σq hps hqs, Vec3.splat_cmul_splat]
    rw [show σp * σq⁻¹ * (σq * σp⁻¹) = 1 from by field_simp]
    rfl
  refine ⟨haction S.translation, ?_, ?_, haction⟩
  · show (((portal_to_portal Q P).mul_transform
        (portal_to_portal P Q)).scale).cmul S.scale = S.scale
    rw [hscale, Vec3.cmul_one]
  · intro v
    show Quat.rotv ((((portal_to_portal Q P).mul_transform
        (portal_to_portal P Q)).rotation).mul S.rotation) v = _
    rw [hrot, Quat.neg_one_mul', Quat.rotv_negq]

/-- Witness for C1 at concrete portal poses (identity portal with unit scale and
a translated portal with uniform scale 2) and a concrete test pose. -/
theorem portal_roundtrip_identity_witness :
    ((((portal_to_portal (Transform.mk ⟨4, 5, 6⟩ ⟨0, 0, 0, 1⟩ (Vec3.splat 2))
        Transform.identity).mul_transform (portal_to_portal Transform.identity
        (Transform.mk ⟨4, 5, 6⟩ ⟨0, 0, 0, 1⟩ (Vec3.splat 2)))).mul_transform
        (Transform.mk ⟨7, 8, 9⟩ ⟨0, 0, 0, 1⟩ Vec3.one)).translation = ⟨7, 8, 9⟩) ∧
    ((((portal_to_portal (Transform.mk ⟨4, 5, 6⟩ ⟨0, 0, 0, 1⟩ (Vec3.splat 2))
        Transform.identity).mul_transform (portal_to_portal Transform.identity
        (Transform.mk ⟨4, 5, 6⟩ ⟨0, 0, 0, 1⟩ (Vec3.splat 2)))).mul_transform
        (Transform.mk ⟨7, 8, 9⟩ ⟨0, 0, 0, 1⟩ Vec3.one)).scale = Vec3.one) ∧
    (∀ v, Quat.rotv ((((portal_to_portal (Transform.mk ⟨4, 5, 6⟩ ⟨0, 0, 0, 1⟩
        (Vec3.splat 2)) Transform.identity).mul_transform (portal_to_portal
        Transform.identity (Transform.mk ⟨4, 5, 6⟩ ⟨0, 0, 0, 1⟩
        (Vec3.splat 2)))).mul_transform (Transform.mk ⟨7, 8, 9⟩ ⟨0, 0, 0, 1⟩
        Vec3.one)).rotation) v = Quat.rotv ⟨0, 0, 0, 1⟩ v) ∧
    (∀ v, ((portal_to_portal (Transform.mk ⟨4, 5, 6⟩ ⟨0, 0, 0, 1⟩ (Vec3.splat 2))
        Transform.identity).mul_transform (portal_to_portal Transform.identity
        (Transform.mk ⟨4, 5, 6⟩ ⟨0, 0, 0, 1⟩ (Vec3.splat 2)))).mul_vec3 v = v) :=
  portal_roundtrip_identity Transform.identity
    (Transform.mk ⟨4, 5, 6⟩ ⟨0, 0, 0, 1⟩ (Vec3.splat 2))
    (Transform.mk ⟨7, 8, 9⟩ ⟨0, 0, 0, 1⟩ Vec3.one) 1 2
    (by show Quat.normSq ⟨0, 0, 0, 1⟩ = 1; simp [Quat.normSq])
    (by show Quat.normSq ⟨0, 0, 0, 1⟩ = 1; simp [Quat.normSq])
    rfl rfl (by norm_num) (by norm_num)

/-- C3 counterexample: at the identity portal transform the plane the code
returns differs from the plane the claim describes (clip point offset along
forward): the fourth components are -1/2 and +1/2 respectively. -/
theorem get_portal_plane_spec_counterexample :
    get_portal_plane Transform.identity ≠ get_portal_plane_spec Transform.identity := by
  intro h
  have hw := congrArg Vec4.w h
  simp only [get_portal_plane, get_portal_plane_spec, Transform.identity, Transform.back,
    Transform.forward, Transform.local_z, Quat.rotv_one, Vec3.unitZ, Vec3.neg_def,
    Vec3.smul_def, Vec3.add_def, Vec3.dot, Vec3.zero, PORTAL_MESH_DEPTH] at hw
  norm_num at hw

/-- C3 (amended): `get_portal_plane` returns the 4-vector `(normal, -normal·point)`
where `normal = trf.back` is the portal's backward-facing surface normal and the
point is the portal origin offset by mesh-depth along that backward normal
(equivalently, offset by minus mesh-depth along the portal's forward direction);
the offset point lies exactly on the returned plane. -/
theorem get_portal_plane_backward_offset (trf : Transform) :
    (get_portal_plane trf
      = ⟨trf.back.x, trf.back.y, trf.back.z,
         -(trf.back.dot (trf.translation + PORTAL_MESH_DEPTH • trf.back))⟩) ∧
    (trf.translation + PORTAL_MESH_DEPTH • trf.back
      = trf.translation - PORTAL_MESH_DEPTH • trf.forward) ∧
    ((get_portal_plane trf).x * (trf.translation + PORTAL_MESH_DEPTH • trf.back).x
      + (get_portal_plane trf).y * (trf.translation + PORTAL_MESH_DEPTH • trf.back).y
      + (get_portal_plane trf).z * (trf.translation + PORTAL_MESH_DEPTH • trf.back).z
      + (get_portal_plane trf).w = 0) := by
  refine ⟨rfl, ?_, ?_⟩
  · unfold Transform.forward Transform.back
    generalize trf.local_z = w
    generalize trf.translation = t
    cases w; cases t
    simp only [Vec3.neg_def, Vec3.smul_def, Vec3.add_def, Vec3.sub_def, Vec3.mk.injEq]
    refine ⟨by ring, by ring, by ring⟩
  · unfold get_portal_plane
    generalize trf.back = n
    generalize trf.translation = t
    cases n; cases t
    simp only [Vec3.smul_def, Vec3.add_def, Vec3.dot]
    ring

namespace Vec3

theorem length_lt_iff (v : Vec3) (c : ℝ) (hc : 0 < c) : v.length < c ↔ v.dot v < c ^ 2 :=
  Real.sqrt_lt' hc

theorem length_eq_of_sq (v : Vec3) (c : ℝ) (hc : 0 ≤ c) (h : v.dot v = c ^ 2) :
    v.length = c := by
  rw [length, h]
  exact Real.sqrt_sq hc

end Vec3

/-- The vector the teleport systems compute as `translation - portal.translation +
mesh_depth * portal.forward` is the offset of the point from the portal's clip
point `portal.translation + mesh_depth * portal.back` (origin minus forward
times depth), not from `origin + forward * depth`. -/
theorem clip_offset_forward (t : Transform) (p : Vec3) :
    p - (t.translation + PORTAL_MESH_DEPTH • t.back)
      = p - t.translation + PORTAL_MESH_DEPTH • t.forward := by
  unfold Transform.forward Transform.back
  generalize t.local_z = w
  generalize t.translation = s
  cases p; cases w; cases s
  simp only [Vec3.neg_def, Vec3.smul_def, Vec3.add_def, Vec3.sub_def, Vec3.mk.injEq]
  refine ⟨by ring, by ring, by ring⟩

/-- C2 (amended): a prop is teleported through portal A exactly when its distance
to A's clip point — A's origin plus mesh-depth times A's backward normal, i.e.
origin MINUS forward times depth — is below the proximity threshold and the
offset from that clip point points along A's forward direction; it is teleported
through portal B exactly when it is additionally NOT within the proximity
threshold of A's clip point and the corresponding distance and dot conditions
hold at B; in all remaining cases it is left unchanged. -/
theorem teleport_props_crossing_characterisation
    (portal_a_trf portal_b_trf obj_transform : Transform) (velocity : Velocity) :
    (((obj_transform.translation
        - (portal_a_trf.translation + PORTAL_MESH_DEPTH • portal_a_trf.back)).length
          < PROXIMITY_THRESHOLD ∧
      0 < (obj_transform.translation
        - (portal_a_trf.translation + PORTAL_MESH_DEPTH • portal_a_trf.back)).dot
          portal_a_trf.forward) →
      teleport_props_step portal_a_trf portal_b_trf obj_transform velocity
        = ⟨(portal_to_portal portal_a_trf portal_b_trf).mul_transform obj_transform,
           ⟨Quat.rotv (portal_to_portal portal_a_trf portal_b_trf).rotation
              velocity.linvel,
            Quat.rotv (portal_to_portal portal_a_trf portal_b_trf).rotation
              velocity.angvel⟩⟩) ∧
    ((¬ (obj_transform.translation
        - (portal_a_trf.translation + PORTAL_MESH_DEPTH • portal_a_trf.back)).length
          < PROXIMITY_THRESHOLD) ∧
      (obj_transform.translation
        - (portal_b_trf.translation + PORTAL_MESH_DEPTH • portal_b_trf.back)).length
          < PROXIMITY_THRESHOLD ∧
      0 < (obj_transform.translation
        - (portal_b_trf.translation + PORTAL_MESH_DEPTH • portal_b_trf.back)).dot
          portal_b_trf.forward →
      teleport_props_step portal_a_trf portal_b_trf obj_transform velocity
        = ⟨(portal_to_portal portal_b_trf portal_a_trf).mul_transform obj_transform,
           ⟨Quat.rotv (portal_to_portal portal_b_trf portal_a_trf).rotation
              velocity.linvel,
            Quat.rotv (portal_to_portal portal_b_trf portal_a_trf).rotation
              velocity.angvel⟩⟩) ∧
    ((obj_transform.translation
        - (portal_a_trf.translation + PORTAL_MESH_DEPTH • portal_a_trf.back)).length
          < PROXIMITY_THRESHOLD ∧
      ¬ 0 < (obj_transform.translation
        - (portal_a_trf.translation + PORTAL_MESH_DEPTH • portal_a_trf.back)).dot
          portal_a_trf.forward →
      teleport_props_step portal_a_trf portal_b_trf obj_transform velocity
        = ⟨obj_transform, velocity⟩) ∧
    (¬ ((obj_transform.translation
        - (portal_a_trf.translation + PORTAL_MESH_DEPTH • portal_a_trf.back)).length
          < PROXIMITY_THRESHOLD ∧
        0 < (obj_transform.translation
          - (portal_a_trf.translation + PORTAL_MESH_DEPTH • portal_a_trf.back)).dot
            portal_a_trf.forward) ∧
      ¬ ((obj_transform.translation
        - (portal_b_trf.translation + PORTAL_MESH_DEPTH • portal_b_trf.back)).length
          < PROXIMITY_THRESHOLD ∧
        0 < (obj_transform.translation
          - (portal_b_trf.translation + PORTAL_MESH_DEPTH • portal_b_trf.back)).dot
            portal_b_trf.forward) →
      teleport_props_step portal_a_trf portal_b_trf obj_transform velocity
        = ⟨obj_transform, velocity⟩) := by
  have hA := clip_offset_forward portal_a_trf obj_transform.translation
  have hB := clip_offset_forward portal_b_trf obj_transform.translation
  refine ⟨?_, ?_, ?_, ?_⟩
  · rintro ⟨hl, hd⟩
    rw [hA] at hl hd
    simp only [teleport_props_step]
    rw [if_pos hl, if_pos hd]
  · rintro ⟨hnl, hl, hd⟩
    rw [hA] at hnl
    rw [hB] at hl hd
    simp only [teleport_props_step]
    rw [if_neg hnl, if_pos (And.intro hl hd)]
  · rintro ⟨hl, hnd⟩
    rw [hA] at hl hnd
    simp only [teleport_props_step]
    rw [if_pos hl, if_neg hnd]
  · rintro ⟨hna, hnb⟩
    rw [hA] at hna
    rw [hB] at hnb
    simp only [teleport_props_step]
    by_cases hl : (obj_transform.translation - portal_a_trf.translation
        + PORTAL_MESH_DEPTH • portal_a_trf.forward).length < PROXIMITY_THRESHOLD
    · rw [if_pos hl, if_neg (fun hd => hna ⟨hl, hd⟩)]
    · rw [if_neg hl, if_neg hnb]


theorem teleport_props_step_crossing_a (pa pb obj : Transform) (v : Velocity)
    (hl : (obj.translation - pa.translation + PORTAL_MESH_DEPTH • pa.forward).length
      < PROXIMITY_THRESHOLD)
    (hd : 0 < (obj.translation - pa.translation
      + PORTAL_MESH_DEPTH • pa.forward).dot pa.forward) :
    teleport_props_step pa pb obj v
      = ⟨(portal_to_portal pa pb).mul_transform obj,
         ⟨Quat.rotv (portal_to_portal pa pb).rotation v.linvel,
          Quat.rotv (portal_to_portal pa pb).rotation v.angvel⟩⟩ := by
  simp only [teleport_props_step]
  rw [if_pos hl, if_pos hd]

theorem teleport_props_step_crossing_b (pa pb obj : Transform) (v : Velocity)
    (hnl : ¬ (obj.translation - pa.translation
      + PORTAL_MESH_DEPTH • pa.forward).length < PROXIMITY_THRESHOLD)
    (hl : (obj.translation - pb.translation + PORTAL_MESH_DEPTH • pb.forward).length
      < PROXIMITY_THRESHOLD)
    (hd : 0 < (obj.translation - pb.translation
      + PORTAL_MESH_DEPTH • pb.forward).dot pb.forward) :
    teleport_props_step pa pb obj v
      = ⟨(portal_to_portal pb pa).mul_transform obj,
         ⟨Quat.rotv (portal_to_portal pb pa).rotation v.linvel,
          Quat.rotv (portal_to_portal pb pa).rotation v.angvel⟩⟩ := by
  simp only [teleport_props_step]
  rw [if_neg hnl, if_pos (And.intro hl hd)]

theorem teleport_props_step_unchanged (pa pb obj : Transform) (v : Velocity)
    (h1 : ¬ ((obj.translation - pa.translation
        + PORTAL_MESH_DEPTH • pa.forward).length < PROXIMITY_THRESHOLD ∧
      0 < (obj.translation - pa.translation
        + PORTAL_MESH_DEPTH • pa.forward).dot pa.forward))
    (h2 : ¬ ((obj.translation - pb.translation
        + PORTAL_MESH_DEPTH • pb.forward).length < PROXIMITY_THRESHOLD ∧
      0 < (obj.translation - pb.translation
        + PORTAL_MESH_DEPTH • pb.forward).dot pb.forward)) :
    teleport_props_step pa pb obj v = ⟨obj, v⟩ := by
  simp only [teleport_props_step]
  by_cases hl : (obj.translation - pa.translation
      + PORTAL_MESH_DEPTH • pa.forward).length < PROXIMITY_THRESHOLD
  · rw [if_pos hl, if_neg (fun hd => h1 ⟨hl, hd⟩)]
  · rw [if_neg hl, if_neg h2]

theorem Transform.forward_of_id_rotation (t : Transform) (h : t.rotation = ⟨0, 0, 0, 1⟩) :
    t.forward = ⟨0, 0, -1⟩ := by
  unfold Transform.forward Transform.local_z
  rw [h, show (Quat.mk 0 0 0 1) = Quat.one from rfl, Quat.rotv_one]
  simp only [Vec3.unitZ, Vec3.neg_def, Vec3.mk.injEq]
  norm_num

theorem Transform.back_of_id_rotation (t : Transform) (h : t.rotation = ⟨0, 0, 0, 1⟩) :
    t.back = Vec3.unitZ := by
  unfold Transform.back Transform.local_z
  rw [h, show (Quat.mk 0 0 0 1) = Quat.one from rfl, Quat.rotv_one]

/-- C2 counterexample: with portal A the identity transform, portal B far away
and a prop at `(0,0,-3/5)`, the claim's crossing-forward condition at portal A —
with the clip point taken as origin PLUS forward times mesh-depth, i.e.
`(0,0,-1/2)` — holds, yet `teleport_props_step` leaves the prop unchanged (the
code measures from `origin - forward * depth = (0,0,1/2)`), while an actual
A-to-B teleport would have moved it. -/
theorem teleport_props_clip_sign_counterexample :
    (((Transform.mk ⟨0, 0, -(3/5)⟩ ⟨0, 0, 0, 1⟩ Vec3.one).translation
        - (Transform.identity.translation
          + PORTAL_MESH_DEPTH • Transform.identity.forward)).length
        < PROXIMITY_THRESHOLD ∧
      0 < ((Transform.mk ⟨0, 0, -(3/5)⟩ ⟨0, 0, 0, 1⟩ Vec3.one).translation
        - (Transform.identity.translation
          + PORTAL_MESH_DEPTH • Transform.identity.forward)).dot
          Transform.identity.forward) ∧
    teleport_props_step Transform.identity
        (Transform.mk ⟨100, 0, 0⟩ ⟨0, 0, 0, 1⟩ Vec3.one)
        (Transform.mk ⟨0, 0, -(3/5)⟩ ⟨0, 0, 0, 1⟩ Vec3.one)
        ⟨⟨0, 0, 0⟩, ⟨0, 0, 0⟩⟩
      = ⟨Transform.mk ⟨0, 0, -(3/5)⟩ ⟨0, 0, 0, 1⟩ Vec3.one, ⟨⟨0, 0, 0⟩, ⟨0, 0, 0⟩⟩⟩ ∧
    (portal_to_portal Transform.identity
        (Transform.mk ⟨100, 0, 0⟩ ⟨0, 0, 0, 1⟩ Vec3.one)).mul_transform
        (Transform.mk ⟨0, 0, -(3/5)⟩ ⟨0, 0, 0, 1⟩ Vec3.one)
      ≠ Transform.mk ⟨0, 0, -(3/5)⟩ ⟨0, 0, 0, 1⟩ Vec3.one := by
  have hfwd : Transform.identity.forward = Vec3.mk 0 0 (-1) :=
    Transform.forward_of_id_rotation _ rfl
  have hbfwd : (Transform.mk ⟨100, 0, 0⟩ ⟨0, 0, 0, 1⟩ Vec3.one).forward
      = Vec3.mk 0 0 (-1) := Transform.forward_of_id_rotation _ rfl
  refine ⟨⟨?_, ?_⟩, ?_, ?_⟩
  · rw [hfwd]
    rw [Vec3.length_lt_iff _ _ (by norm_num [PROXIMITY_THRESHOLD])]
    simp only [Transform.identity, Vec3.zero, Vec3.smul_def, Vec3.add_def, Vec3.sub_def,
      Vec3.dot, PORTAL_MESH_DEPTH, PROXIMITY_THRESHOLD]
    norm_num
  · rw [hfwd]
    simp only [Transform.identity, Vec3.zero, Vec3.smul_def, Vec3.add_def, Vec3.sub_def,
      Vec3.dot, PORTAL_MESH_DEPTH]
    norm_num
  · refine teleport_props_step_unchanged _ _ _ _ ?_ ?_
    · rintro ⟨hl, _⟩
      rw [hfwd, Vec3.length_lt_iff _ _ (by norm_num [PROXIMITY_THRESHOLD])] at hl
      simp only [Transform.identity, Vec3.zero, Vec3.smul_def, Vec3.add_def,
        Vec3.sub_def, Vec3.dot, PORTAL_MESH_DEPTH, PROXIMITY_THRESHOLD] at hl
      norm_num at hl
    · rintro ⟨hl, _⟩
      rw [hbfwd, Vec3.length_lt_iff _ _ (by norm_num [PROXIMITY_THRESHOLD])] at hl
      simp only [Transform.identity, Vec3.zero, Vec3.smul_def, Vec3.add_def,
        Vec3.sub_def, Vec3.dot, PORTAL_MESH_DEPTH, PROXIMITY_THRESHOLD] at hl
      norm_num at hl
  · have hv : ((portal_to_portal Transform.identity
        (Transform.mk ⟨100, 0, 0⟩ ⟨0, 0, 0, 1⟩ Vec3.one)).mul_transform
        (Transform.mk ⟨0, 0, -(3/5)⟩ ⟨0, 0, 0, 1⟩ Vec3.one)).translation
        = Vec3.mk 100 0 (8/5) := by
      show (portal_to_portal Transform.identity
        (Transform.mk ⟨100, 0, 0⟩ ⟨0, 0, 0, 1⟩ Vec3.one)).mul_vec3 ⟨0, 0, -(3/5)⟩ = _
      rw [portal_to_portal_mul_vec3 _ _ 1 1 rfl rfl]
      rw [Quat.from_rotation_y_pi]
      rw [show (Vec3.mk 0 0 (-(3/5)) + PORTAL_MESH_DEPTH • Transform.identity.forward)
          = Vec3.mk 0 0 (-(11/10)) from by
        rw [hfwd]
        simp only [PORTAL_MESH_DEPTH, Vec3.smul_def, Vec3.add_def, Vec3.mk.injEq]
        norm_num]
      rw [show (Transform.invUniform Transform.identity).mul_vec3 (Vec3.mk 0 0 (-(11/10)))
          = Vec3.mk 0 0 (-(11/10)) from by
        simp only [Transform.invUniform, Transform.identity, Transform.mul_vec3,
          Quat.conj, Quat.one, Quat.rotv, Vec3.zero, Vec3.one, Vec3.dot, Vec3.cross,
          Vec3.splat, Vec3.cmul, Vec3.smul_def, Vec3.add_def, Vec3.mk.injEq]
        norm_num]
      rw [show Quat.rotv ⟨0, 1, 0, 0⟩ (Vec3.mk 0 0 (-(11/10))) = Vec3.mk 0 0 (11/10)
          from by
        simp only [Quat.rotv, Vec3.dot, Vec3.cross, Vec3.smul_def, Vec3.add_def,
          Vec3.mk.injEq]
        norm_num]
      rw [show (Transform.mk ⟨100, 0, 0⟩ ⟨0, 0, 0, 1⟩ Vec3.one).mul_vec3
          (Vec3.mk 0 0 (11/10)) = Vec3.mk 100 0 (11/10) from by
        show Vec3.one.cmul (Quat.rotv ⟨0, 0, 0, 1⟩ ⟨0, 0, 11/10⟩) + ⟨100, 0, 0⟩ = _
        rw [show (Quat.mk 0 0 0 1) = Quat.one from rfl, Quat.rotv_one, Vec3.cmul_one]
        simp only [Vec3.add_def, Vec3.mk.injEq]
        norm_num]
      rw [Transform.back_of_id_rotation _ rfl]
      simp only [PORTAL_MESH_DEPTH, Vec3.unitZ, Vec3.smul_def, Vec3.add_def,
        Vec3.mk.injEq]
      norm_num
    intro h
    rw [h] at hv
    simp only [Vec3.mk.injEq] at hv
    norm_num at hv

/-- Witness for C2 at a concrete crossing through portal A. -/
theorem teleport_props_crossing_characterisation_witness :
    teleport_props_step Transform.identity
        (Transform.mk ⟨100, 0, 0⟩ ⟨0, 0, 0, 1⟩ Vec3.one)
        (Transform.mk ⟨0, 0, 2/5⟩ ⟨0, 0, 0, 1⟩ Vec3.one)
        ⟨⟨0, 0, -(1/10)⟩, ⟨1, 0, 0⟩⟩
      = ⟨(portal_to_portal Transform.identity
            (Transform.mk ⟨100, 0, 0⟩ ⟨0, 0, 0, 1⟩ Vec3.one)).mul_transform
            (Transform.mk ⟨0, 0, 2/5⟩ ⟨0, 0, 0, 1⟩ Vec3.one),
         ⟨Quat.rotv (portal_to_portal Transform.identity
              (Transform.mk ⟨100, 0, 0⟩ ⟨0, 0, 0, 1⟩ Vec3.one)).rotation ⟨0, 0, -(1/10)⟩,
          Quat.rotv (portal_to_portal Transform.identity
              (Transform.mk ⟨100, 0, 0⟩ ⟨0, 0, 0, 1⟩ Vec3.one)).rotation ⟨1, 0, 0⟩⟩⟩ := by
  refine (teleport_props_crossing_characterisation Transform.identity
    (Transform.mk ⟨100, 0, 0⟩ ⟨0, 0, 0, 1⟩ Vec3.one)
    (Transform.mk ⟨0, 0, 2/5⟩ ⟨0, 0, 0, 1⟩ Vec3.one)
    ⟨⟨0, 0, -(1/10)⟩, ⟨1, 0, 0⟩⟩).1 ⟨?_, ?_⟩
  · rw [Transform.back_of_id_rotation _ rfl,
      Vec3.length_lt_iff _ _ (by norm_num [PROXIMITY_THRESHOLD])]
    simp only [Transform.identity, Vec3.zero, Vec3.unitZ, Vec3.smul_def, Vec3.add_def,
      Vec3.sub_def, Vec3.dot, PORTAL_MESH_DEPTH, PROXIMITY_THRESHOLD]
    norm_num
  · rw [Transform.back_of_id_rotation _ rfl, Transform.forward_of_id_rotation _ rfl]
    simp only [Transform.identity, Vec3.zero, Vec3.unitZ, Vec3.smul_def, Vec3.add_def,
      Vec3.sub_def, Vec3.dot, PORTAL_MESH_DEPTH]
    norm_num

namespace Vec3

theorem dot_add_left (a b c : Vec3) : (a + b).dot c = a.dot c + b.dot c := by
  cases a; cases b; cases c
  simp only [add_def, dot]
  ring

theorem dot_smul_left (c : ℝ) (a b : Vec3) : (c • a).dot b = c * a.dot b := by
  cases a; cases b
  simp only [smul_def, dot]
  ring

theorem smul_add_smul (c d : ℝ) (v : Vec3) : c • v + d • v = (c + d) • v := by
  cases v
  simp only [smul_def, add_def, mk.injEq]
  refine ⟨by ring, by ring, by ring⟩

theorem length_nonneg (v : Vec3) : 0 ≤ v.length := Real.sqrt_nonneg _

end Vec3

namespace Quat

theorem normSq_mul (a b : Quat) : normSq (a.mul b) = normSq a * normSq b := by
  cases a; cases b
  simp only [mul, normSq]
  ring

theorem normSq_conj (q : Quat) : normSq q.conj = normSq q := by
  cases q
  simp only [conj, normSq]
  ring

end Quat

/-- The rotation part of a composed portal-to-portal transform is a unit
quaternion whenever the two portal rotations are. -/
theorem portal_to_portal_rotation_unit (a b : Transform)
    (ha : a.rotation.IsUnit) (hb : b.rotation.IsUnit) :
    (portal_to_portal a b).rotation.IsUnit := by
  rw [Quat.IsUnit, portal_to_portal_rotation, Quat.normSq_mul, Quat.normSq_mul,
    Quat.normSq_conj, ha, hb, Quat.from_rotation_y_pi]
  simp only [Quat.normSq]
  norm_num

theorem Transform.back_dot_back (t : Transform) (h : t.rotation.IsUnit) :
    t.back.dot t.back = 1 := by
  unfold Transform.back Transform.local_z
  rw [Quat.dot_rotv, h]
  simp only [Vec3.unitZ, Vec3.dot]
  norm_num

theorem teleport_player_step_crossing_a (pa pb pl : Transform) (v : Velocity)
    (cl cg : Transform) (pe : ℕ) (pitch : ℝ)
    (hl : (pl.translation - pa.translation + PORTAL_MESH_DEPTH • pa.forward).length
      < PLAYER_PROXIMITY_THRESHOLD)
    (hd : 0 < (pl.translation - pa.translation
      + PORTAL_MESH_DEPTH • pa.forward).dot pa.forward) :
    teleport_player_step pa pb pl v cl cg pe pitch
      = ⟨(adjust_player_camera_on_teleport (portal_to_portal pa pb) cg cl pe pl
            pitch).player,
         ⟨(if ((Quat.rotv (portal_to_portal pa pb).rotation v.linvel).length
              • pb.back).dot pb.back < MIN_OUTBOUND_SPEED then
            (Quat.rotv (portal_to_portal pa pb).rotation v.linvel).length • pb.back
              + MIN_OUTBOUND_SPEED • pb.back
          else
            (Quat.rotv (portal_to_portal pa pb).rotation v.linvel).length • pb.back),
          v.angvel⟩,
         (adjust_player_camera_on_teleport (portal_to_portal pa pb) cg cl pe pl
            pitch).camera_local,
         (adjust_player_camera_on_teleport (portal_to_portal pa pb) cg cl pe pl
            pitch).pitch⟩ := by
  simp only [teleport_player_step]
  rw [if_pos hl, if_pos hd]

theorem teleport_player_step_crossing_b (pa pb pl : Transform) (v : Velocity)
    (cl cg : Transform) (pe : ℕ) (pitch : ℝ)
    (hnl : ¬ (pl.translation - pa.translation
      + PORTAL_MESH_DEPTH • pa.forward).length < PLAYER_PROXIMITY_THRESHOLD)
    (hl : (pl.translation - pb.translation + PORTAL_MESH_DEPTH • pb.forward).length
      < PLAYER_PROXIMITY_THRESHOLD)
    (hd : 0 < (pl.translation - pb.translation
      + PORTAL_MESH_DEPTH • pb.forward).dot pb.forward) :
    teleport_player_step pa pb pl v cl cg pe pitch
      = ⟨(adjust_player_camera_on_teleport (portal_to_portal pb pa) cg cl pe pl
            pitch).player,
         ⟨(if ((Quat.rotv (portal_to_portal pb pa).rotation v.linvel).length
              • pa.back).dot pa.back < MIN_OUTBOUND_SPEED then
            (Quat.rotv (portal_to_portal pb pa).rotation v.linvel).length • pa.back
              + MIN_OUTBOUND_SPEED • pa.back
          else
            (Quat.rotv (portal_to_portal pb pa).rotation v.linvel).length • pa.back),
          v.angvel⟩,
         (adjust_player_camera_on_teleport (portal_to_portal pb pa) cg cl pe pl
            pitch).camera_local,
         (adjust_player_camera_on_teleport (portal_to_portal pb pa) cg cl pe pl
            pitch).pitch⟩ := by
  simp only [teleport_player_step]
  rw [if_neg hnl, if_pos hl, if_pos hd]

theorem teleport_player_step_unchanged_a (pa pb pl : Transform) (v : Velocity)
    (cl cg : Transform) (pe : ℕ) (pitch : ℝ)
    (hl : (pl.translation - pa.translation + PORTAL_MESH_DEPTH • pa.forward).length
      < PLAYER_PROXIMITY_THRESHOLD)
    (hnd : ¬ 0 < (pl.translation - pa.translation
      + PORTAL_MESH_DEPTH • pa.forward).dot pa.forward) :
    teleport_player_step pa pb pl v cl cg pe pitch = ⟨pl, v, cl, pitch⟩ := by
  simp only [teleport_player_step]
  rw [if_pos hl, if_neg hnd]

theorem teleport_player_step_unchanged_b (pa pb pl : Transform) (v : Velocity)
    (cl cg : Transform) (pe : ℕ) (pitch : ℝ)
    (hnl : ¬ (pl.translation - pa.translation
      + PORTAL_MESH_DEPTH • pa.forward).length < PLAYER_PROXIMITY_THRESHOLD)
    (hlb : (pl.translation - pb.translation + PORTAL_MESH_DEPTH • pb.forward).length
      < PLAYER_PROXIMITY_THRESHOLD)
    (hnd : ¬ 0 < (pl.translation - pb.translation
      + PORTAL_MESH_DEPTH • pb.forward).dot pb.forward) :
    teleport_player_step pa pb pl v cl cg pe pitch = ⟨pl, v, cl, pitch⟩ := by
  simp only [teleport_player_step]
  rw [if_neg hnl, if_pos hlb, if_neg hnd]

theorem teleport_player_step_unchanged_far (pa pb pl : Transform) (v : Velocity)
    (cl cg : Transform) (pe : ℕ) (pitch : ℝ)
    (hnl : ¬ (pl.translation - pa.translation
      + PORTAL_MESH_DEPTH • pa.forward).length < PLAYER_PROXIMITY_THRESHOLD)
    (hnlb : ¬ (pl.translation - pb.translation
      + PORTAL_MESH_DEPTH • pb.forward).length < PLAYER_PROXIMITY_THRESHOLD) :
    teleport_player_step pa pb pl v cl cg pe pitch = ⟨pl, v, cl, pitch⟩ := by
  simp only [teleport_player_step]
  rw [if_neg hnl, if_neg hnlb]

/-- C5 (amended): a prop crossing the portal pair is never speed-boosted: its
velocity is only rotated, so its speed (and angular speed) is unchanged
regardless of how slow it entered; the minimum-outbound-speed enforcement
exists only in the player teleport, where the outbound component along the
destination portal's backward direction always ends up at least
`MIN_OUTBOUND_SPEED`. -/
theorem prop_speed_preserved_player_min_speed
    (pa pb obj pl cl cg : Transform) (v pv : Velocity) (pe : ℕ) (pitch : ℝ)
    (hau : pa.rotation.IsUnit) (hbu : pb.rotation.IsUnit) :
    (((obj.translation - pa.translation + PORTAL_MESH_DEPTH • pa.forward).length
        < PROXIMITY_THRESHOLD ∧
      0 < (obj.translation - pa.translation
        + PORTAL_MESH_DEPTH • pa.forward).dot pa.forward) →
      (teleport_props_step pa pb obj v).2.linvel
          = Quat.rotv (portal_to_portal pa pb).rotation v.linvel ∧
        ((teleport_props_step pa pb obj v).2.linvel).length = v.linvel.length ∧
        ((teleport_props_step pa pb obj v).2.angvel).length = v.angvel.length) ∧
    ((¬ (obj.translation - pa.translation
        + PORTAL_MESH_DEPTH • pa.forward).length < PROXIMITY_THRESHOLD) ∧
      (obj.translation - pb.translation + PORTAL_MESH_DEPTH • pb.forward).length
        < PROXIMITY_THRESHOLD ∧
      0 < (obj.translation - pb.translation
        + PORTAL_MESH_DEPTH • pb.forward).dot pb.forward →
      (teleport_props_step pa pb obj v).2.linvel
          = Quat.rotv (portal_to_portal pb pa).rotation v.linvel ∧
        ((teleport_props_step pa pb obj v).2.linvel).length = v.linvel.length ∧
        ((teleport_props_step pa pb obj v).2.angvel).length = v.angvel.length) ∧
    (((pl.translation - pa.translation + PORTAL_MESH_DEPTH • pa.forward).length
        < PLAYER_PROXIMITY_THRESHOLD ∧
      0 < (pl.translation - pa.translation
        + PORTAL_MESH_DEPTH • pa.forward).dot pa.forward) →
      MIN_OUTBOUND_SPEED
        ≤ ((teleport_player_step pa pb pl pv cl cg pe pitch).velocity.linvel).dot
            pb.back) ∧
    ((¬ (pl.translation - pa.translation
        + PORTAL_MESH_DEPTH • pa.forward).length < PLAYER_PROXIMITY_THRESHOLD) ∧
      (pl.translation - pb.translation + PORTAL_MESH_DEPTH • pb.forward).length
        < PLAYER_PROXIMITY_THRESHOLD ∧
      0 < (pl.translation - pb.translation
        + PORTAL_MESH_DEPTH • pb.forward).dot pb.forward →
      MIN_OUTBOUND_SPEED
        ≤ ((teleport_player_step pa pb pl pv cl cg pe pitch).velocity.linvel).dot
            pa.back) := by
  have hunit_ab := portal_to_portal_rotation_unit pa pb hau hbu
  have hunit_ba := portal_to_portal_rotation_unit pb pa hbu hau
  refine ⟨?_, ?_, ?_, ?_⟩
  · rintro ⟨hl, hd⟩
    rw [teleport_props_step_crossing_a pa pb obj v hl hd]
    exact ⟨rfl, Quat.length_rotv _ hunit_ab _, Quat.length_rotv _ hunit_ab _⟩
  · rintro ⟨hnl, hl, hd⟩
    rw [teleport_props_step_crossing_b pa pb obj v hnl hl hd]
    exact ⟨rfl, Quat.length_rotv _ hunit_ba _, Quat.length_rotv _ hunit_ba _⟩
  · rintro ⟨hl, hd⟩
    rw [teleport_player_step_crossing_a pa pb pl pv cl cg pe pitch hl hd]
    show MIN_OUTBOUND_SPEED ≤ (if ((Quat.rotv (portal_to_portal pa pb).rotation
        pv.linvel).length • pb.back).dot pb.back < MIN_OUTBOUND_SPEED then
      (Quat.rotv (portal_to_portal pa pb).rotation pv.linvel).length • pb.back
        + MIN_OUTBOUND_SPEED • pb.back
    else
      (Quat.rotv (portal_to_portal pa pb).rotation pv.linvel).length • pb.back).dot
        pb.back
    by_cases hc : ((Quat.rotv (portal_to_portal pa pb).rotation
        pv.linvel).length • pb.back).dot pb.back < MIN_OUTBOUND_SPEED
    · rw [if_pos hc, Vec3.dot_add_left, Vec3.dot_smul_left, Vec3.dot_smul_left,
        Transform.back_dot_back pb hbu]
      have h0 := Vec3.length_nonneg (Quat.rotv (portal_to_portal pa pb).rotation
        pv.linvel)
      linarith
    · rw [if_neg hc]
      exact not_lt.mp hc
  · rintro ⟨hnl, hl, hd⟩
    rw [teleport_player_step_crossing_b pa pb pl pv cl cg pe pitch hnl hl hd]
    show MIN_OUTBOUND_SPEED ≤ (if ((Quat.rotv (portal_to_portal pb pa).rotation
        pv.linvel).length • pa.back).dot pa.back < MIN_OUTBOUND_SPEED then
      (Quat.rotv (portal_to_portal pb pa).rotation pv.linvel).length • pa.back
        + MIN_OUTBOUND_SPEED • pa.back
    else
      (Quat.rotv (portal_to_portal pb pa).rotation pv.linvel).length • pa.back).dot
        pa.back
    by_cases hc : ((Quat.rotv (portal_to_portal pb pa).rotation
        pv.linvel).length • pa.back).dot pa.back < MIN_OUTBOUND_SPEED
    · rw [if_pos hc, Vec3.dot_add_left, Vec3.dot_smul_left, Vec3.dot_smul_left,
        Transform.back_dot_back pa hau]
      have h0 := Vec3.length_nonneg (Quat.rotv (portal_to_portal pb pa).rotation
        pv.linvel)
      linarith
    · rw [if_neg hc]
      exact not_lt.mp hc

/-- C5 counterexample: a prop entering portal A at speed 1/10 (below the
configured minimum outbound speed of 3) does cross, yet emerges with outbound
speed 1/10 along the destination portal's backward direction — the prop
teleport applies no minimum-speed boost. -/
theorem prop_min_speed_counterexample :
    (((Transform.mk ⟨0, 0, 2/5⟩ ⟨0, 0, 0, 1⟩ Vec3.one).translation
        - Transform.identity.translation
        + PORTAL_MESH_DEPTH • Transform.identity.forward).length
        < PROXIMITY_THRESHOLD ∧
      0 < ((Transform.mk ⟨0, 0, 2/5⟩ ⟨0, 0, 0, 1⟩ Vec3.one).translation
        - Transform.identity.translation
        + PORTAL_MESH_DEPTH • Transform.identity.forward).dot
          Transform.identity.forward) ∧
    (Vec3.mk 0 0 (-(1/10))).length < MIN_OUTBOUND_SPEED ∧
    ((teleport_props_step Transform.identity
        (Transform.mk ⟨100, 0, 0⟩ ⟨0, 0, 0, 1⟩ Vec3.one)
        (Transform.mk ⟨0, 0, 2/5⟩ ⟨0, 0, 0, 1⟩ Vec3.one)
        ⟨⟨0, 0, -(1/10)⟩, ⟨0, 0, 0⟩⟩).2.linvel).dot
        (Transform.mk ⟨100, 0, 0⟩ ⟨0, 0, 0, 1⟩ Vec3.one).back
      < MIN_OUTBOUND_SPEED := by
  have hfwd : Transform.identity.forward = Vec3.mk 0 0 (-1) :=
    Transform.forward_of_id_rotation _ rfl
  have h1 : ((Transform.mk ⟨0, 0, 2/5⟩ ⟨0, 0, 0, 1⟩ Vec3.one).translation
      - Transform.identity.translation
      + PORTAL_MESH_DEPTH • Transform.identity.forward).length
      < PROXIMITY_THRESHOLD := by
    rw [hfwd, Vec3.length_lt_iff _ _ (by norm_num [PROXIMITY_THRESHOLD])]
    simp only [Transform.identity, Vec3.zero, Vec3.smul_def, Vec3.add_def, Vec3.sub_def,
      Vec3.dot, PORTAL_MESH_DEPTH, PROXIMITY_THRESHOLD]
    norm_num
  have h2 : 0 < ((Transform.mk ⟨0, 0, 2/5⟩ ⟨0, 0, 0, 1⟩ Vec3.one).translation
      - Transform.identity.translation
      + PORTAL_MESH_DEPTH • Transform.identity.forward).dot
        Transform.identity.forward := by
    rw [hfwd]
    simp only [Transform.identity, Vec3.zero, Vec3.smul_def, Vec3.add_def, Vec3.sub_def,
      Vec3.dot, PORTAL_MESH_DEPTH]
    norm_num
  refine ⟨⟨h1, h2⟩, ?_, ?_⟩
  · rw [Vec3.length_eq_of_sq _ (1/10) (by norm_num) (by
      simp only [Vec3.dot]
      norm_num)]
    norm_num [MIN_OUTBOUND_SPEED]
  · rw [teleport_props_step_crossing_a _ _ _ _ h1 h2]
    show (Quat.rotv (portal_to_portal Transform.identity
        (Transform.mk ⟨100, 0, 0⟩ ⟨0, 0, 0, 1⟩ Vec3.one)).rotation
        ⟨0, 0, -(1/10)⟩).dot (Transform.mk ⟨100, 0, 0⟩ ⟨0, 0, 0, 1⟩ Vec3.one).back
      < MIN_OUTBOUND_SPEED
    rw [portal_to_portal_rotation, Quat.from_rotation_y_pi]
    rw [show ((Transform.mk ⟨100, 0, 0⟩ ⟨0, 0, 0, 1⟩ Vec3.one).rotation.mul
        (Quat.mk 0 1 0 0)).mul Transform.identity.rotation.conj = Quat.mk 0 1 0 0
      from by
        simp only [Transform.identity, Quat.mul, Quat.conj, Quat.one, Quat.mk.injEq]
        norm_num]
    rw [Transform.back_of_id_rotation _ rfl]
    simp only [Quat.rotv, Vec3.unitZ, Vec3.dot, Vec3.cross, Vec3.smul_def, Vec3.add_def,
      MIN_OUTBOUND_SPEED]
    norm_num

/-- Witness for C5 at a concrete crossing through portal A with unit portal
rotations. -/
theorem prop_speed_preserved_player_min_speed_witness :
    (teleport_props_step Transform.identity
        (Transform.mk ⟨100, 0, 0⟩ ⟨0, 0, 0, 1⟩ Vec3.one)
        (Transform.mk ⟨0, 0, 2/5⟩ ⟨0, 0, 0, 1⟩ Vec3.one)
        ⟨⟨0, 0, -(1/10)⟩, ⟨0, 0, 0⟩⟩).2.linvel
      = Quat.rotv (portal_to_portal Transform.identity
          (Transform.mk ⟨100, 0, 0⟩ ⟨0, 0, 0, 1⟩ Vec3.one)).rotation
          ⟨0, 0, -(1/10)⟩ ∧
    ((teleport_props_step Transform.identity
        (Transform.mk ⟨100, 0, 0⟩ ⟨0, 0, 0, 1⟩ Vec3.one)
        (Transform.mk ⟨0, 0, 2/5⟩ ⟨0, 0, 0, 1⟩ Vec3.one)
        ⟨⟨0, 0, -(1/10)⟩, ⟨0, 0, 0⟩⟩).2.linvel).length
      = (Vec3.mk 0 0 (-(1/10))).length := by
  have h := prop_speed_preserved_player_min_speed Transform.identity
    (Transform.mk ⟨100, 0, 0⟩ ⟨0, 0, 0, 1⟩ Vec3.one)
    (Transform.mk ⟨0, 0, 2/5⟩ ⟨0, 0, 0, 1⟩ Vec3.one)
    Transform.identity Transform.identity Transform.identity
    ⟨⟨0, 0, -(1/10)⟩, ⟨0, 0, 0⟩⟩ ⟨⟨0, 0, 0⟩, ⟨0, 0, 0⟩⟩ 0 0
    (by show Quat.normSq ⟨0, 0, 0, 1⟩ = 1; simp [Quat.normSq])
    (by show Quat.normSq ⟨0, 0, 0, 1⟩ = 1; simp [Quat.normSq])
  have hfwd : Transform.identity.forward = Vec3.mk 0 0 (-1) :=
    Transform.forward_of_id_rotation _ rfl
  have h1 : ((Transform.mk ⟨0, 0, 2/5⟩ ⟨0, 0, 0, 1⟩ Vec3.one).translation
      - Transform.identity.translation
      + PORTAL_MESH_DEPTH • Transform.identity.forward).length
      < PROXIMITY_THRESHOLD := by
    rw [hfwd, Vec3.length_lt_iff _ _ (by norm_num [PROXIMITY_THRESHOLD])]
    simp only [Transform.identity, Vec3.zero, Vec3.smul_def, Vec3.add_def, Vec3.sub_def,
      Vec3.dot, PORTAL_MESH_DEPTH, PROXIMITY_THRESHOLD]
    norm_num
  have h2 : 0 < ((Transform.mk ⟨0, 0, 2/5⟩ ⟨0, 0, 0, 1⟩ Vec3.one).translation
      - Transform.identity.translation
      + PORTAL_MESH_DEPTH • Transform.identity.forward).dot
        Transform.identity.forward := by
    rw [hfwd]
    simp only [Transform.identity, Vec3.zero, Vec3.smul_def, Vec3.add_def, Vec3.sub_def,
      Vec3.dot, PORTAL_MESH_DEPTH]
    norm_num
  obtain ⟨hb1, hb2, _⟩ := h.1 ⟨h1, h2⟩
  exact ⟨hb1, hb2⟩

/-- C6 (amended): on a qualifying crossing, a prop has the matching composed
portal transform applied to its pose and the transform's rotation applied to
both its linear and angular velocity; the player has the composed transform
applied to the pose through the orientation-correction routine, but the linear
velocity is redirected along the destination portal's backward direction (a
non-negative multiple of it), and the angular velocity is left unchanged
(not rotated). -/
theorem pose_and_velocity_on_crossing
    (pa pb obj pl cl cg : Transform) (v pv : Velocity) (pe : ℕ) (pitch : ℝ) :
    (((obj.translation - pa.translation + PORTAL_MESH_DEPTH • pa.forward).length
        < PROXIMITY_THRESHOLD ∧
      0 < (obj.translation - pa.translation
        + PORTAL_MESH_DEPTH • pa.forward).dot pa.forward) →
      (teleport_props_step pa pb obj v).1
          = (portal_to_portal pa pb).mul_transform obj ∧
        (teleport_props_step pa pb obj v).2.linvel
          = Quat.rotv (portal_to_portal pa pb).rotation v.linvel ∧
        (teleport_props_step pa pb obj v).2.angvel
          = Quat.rotv (portal_to_portal pa pb).rotation v.angvel) ∧
    ((¬ (obj.translation - pa.translation
        + PORTAL_MESH_DEPTH • pa.forward).length < PROXIMITY_THRESHOLD) ∧
      (obj.translation - pb.translation + PORTAL_MESH_DEPTH • pb.forward).length
        < PROXIMITY_THRESHOLD ∧
      0 < (obj.translation - pb.translation
        + PORTAL_MESH_DEPTH • pb.forward).dot pb.forward →
      (teleport_props_step pa pb obj v).1
          = (portal_to_portal pb pa).mul_transform obj ∧
        (teleport_props_step pa pb obj v).2.linvel
          = Quat.rotv (portal_to_portal pb pa).rotation v.linvel ∧
        (teleport_props_step pa pb obj v).2.angvel
          = Quat.rotv (portal_to_portal pb pa).rotation v.angvel) ∧
    (((pl.translation - pa.translation + PORTAL_MESH_DEPTH • pa.forward).length
        < PLAYER_PROXIMITY_THRESHOLD ∧
      0 < (pl.translation - pa.translation
        + PORTAL_MESH_DEPTH • pa.forward).dot pa.forward) →
      (teleport_player_step pa pb pl pv cl cg pe pitch).player
          = (adjust_player_camera_on_teleport (portal_to_portal pa pb) cg cl pe pl
              pitch).player ∧
        (teleport_player_step pa pb pl pv cl cg pe pitch).velocity.angvel
          = pv.angvel ∧
        ∃ c : ℝ, 0 ≤ c ∧
          (teleport_player_step pa pb pl pv cl cg pe pitch).velocity.linvel
            = c • pb.back) ∧
    ((¬ (pl.translation - pa.translation
        + PORTAL_MESH_DEPTH • pa.forward).length < PLAYER_PROXIMITY_THRESHOLD) ∧
      (pl.translation - pb.translation + PORTAL_MESH_DEPTH • pb.forward).length
        < PLAYER_PROXIMITY_THRESHOLD ∧
      0 < (pl.translation - pb.translation
        + PORTAL_MESH_DEPTH • pb.forward).dot pb.forward →
      (teleport_player_step pa pb pl pv cl cg pe pitch).player
          = (adjust_player_camera_on_teleport (portal_to_portal pb pa) cg cl pe pl
              pitch).player ∧
        (teleport_player_step pa pb pl pv cl cg pe pitch).velocity.angvel
          = pv.angvel ∧
        ∃ c : ℝ, 0 ≤ c ∧
          (teleport_player_step pa pb pl pv cl cg pe pitch).velocity.linvel
            = c • pa.back) := by
  refine ⟨?_, ?_, ?_, ?_⟩
  · rintro ⟨hl, hd⟩
    rw [teleport_props_step_crossing_a pa pb obj v hl hd]
    exact ⟨rfl, rfl, rfl⟩
  · rintro ⟨hnl, hl, hd⟩
    rw [teleport_props_step_crossing_b pa pb obj v hnl hl hd]
    exact ⟨rfl, rfl, rfl⟩
  · rintro ⟨hl, hd⟩
    rw [teleport_player_step_crossing_a pa pb pl pv cl cg pe pitch hl hd]
    refine ⟨rfl, rfl, ?_⟩
    show ∃ c : ℝ, 0 ≤ c ∧ (if ((Quat.rotv (portal_to_portal pa pb).rotation
        pv.linvel).length • pb.back).dot pb.back < MIN_OUTBOUND_SPEED then
      (Quat.rotv (portal_to_portal pa pb).rotation pv.linvel).length • pb.back
        + MIN_OUTBOUND_SPEED • pb.back
    else
      (Quat.rotv (portal_to_portal pa pb).rotation pv.linvel).length • pb.back)
      = c • pb.back
    have h0 := Vec3.length_nonneg (Quat.rotv (portal_to_portal pa pb).rotation
      pv.linvel)
    by_cases hc : ((Quat.rotv (portal_to_portal pa pb).rotation
        pv.linvel).length • pb.back).dot pb.back < MIN_OUTBOUND_SPEED
    · refine ⟨(Quat.rotv (portal_to_portal pa pb).rotation pv.linvel).length
        + MIN_OUTBOUND_SPEED, by norm_num [MIN_OUTBOUND_SPEED]; linarith, ?_⟩
      rw [if_pos hc, Vec3.smul_add_smul]
    · exact ⟨_, h0, by rw [if_neg hc]⟩
  · rintro ⟨hnl, hl, hd⟩
    rw [teleport_player_step_crossing_b pa pb pl pv cl cg pe pitch hnl hl hd]
    refine ⟨rfl, rfl, ?_⟩
    show ∃ c : ℝ, 0 ≤ c ∧ (if ((Quat.rotv (portal_to_portal pb pa).rotation
        pv.linvel).length • pa.back).dot pa.back < MIN_OUTBOUND_SPEED then
      (Quat.rotv (portal_to_portal pb pa).rotation pv.linvel).length • pa.back
        + MIN_OUTBOUND_SPEED • pa.back
    else
      (Quat.rotv (portal_to_portal pb pa).rotation pv.linvel).length • pa.back)
      = c • pa.back
    have h0 := Vec3.length_nonneg (Quat.rotv (portal_to_portal pb pa).rotation
      pv.linvel)
    by_cases hc : ((Quat.rotv (portal_to_portal pb pa).rotation
        pv.linvel).length • pa.back).dot pa.back < MIN_OUTBOUND_SPEED
    · refine ⟨(Quat.rotv (portal_to_portal pb pa).rotation pv.linvel).length
        + MIN_OUTBOUND_SPEED, by norm_num [MIN_OUTBOUND_SPEED]; linarith, ?_⟩
      rw [if_pos hc, Vec3.smul_add_smul]
    · exact ⟨_, h0, by rw [if_neg hc]⟩

/-- C6 counterexample: on a qualifying player crossing through portal A, the
player's angular velocity is left exactly as it was — it is NOT rotated by the
composed transform's rotational part (which here maps `(1,0,0)` to `(-1,0,0)`). -/
theorem player_angvel_not_rotated_counterexample :
    (((Transform.mk ⟨0, 0, 2/5⟩ ⟨0, 0, 0, 1⟩ Vec3.one).translation
        - Transform.identity.translation
        + PORTAL_MESH_DEPTH • Transform.identity.forward).length
        < PLAYER_PROXIMITY_THRESHOLD ∧
      0 < ((Transform.mk ⟨0, 0, 2/5⟩ ⟨0, 0, 0, 1⟩ Vec3.one).translation
        - Transform.identity.translation
        + PORTAL_MESH_DEPTH • Transform.identity.forward).dot
          Transform.identity.forward) ∧
    (teleport_player_step Transform.identity
        (Transform.mk ⟨100, 0, 0⟩ ⟨0, 0, 0, 1⟩ Vec3.one)
        (Transform.mk ⟨0, 0, 2/5⟩ ⟨0, 0, 0, 1⟩ Vec3.one)
        ⟨⟨0, 0, -(1/10)⟩, ⟨1, 0, 0⟩⟩ Transform.identity Transform.identity 0
        0).velocity.angvel = Vec3.mk 1 0 0 ∧
    Quat.rotv (portal_to_portal Transform.identity
        (Transform.mk ⟨100, 0, 0⟩ ⟨0, 0, 0, 1⟩ Vec3.one)).rotation ⟨1, 0, 0⟩
      = Vec3.mk (-1) 0 0 ∧
    (teleport_player_step Transform.identity
        (Transform.mk ⟨100, 0, 0⟩ ⟨0, 0, 0, 1⟩ Vec3.one)
        (Transform.mk ⟨0, 0, 2/5⟩ ⟨0, 0, 0, 1⟩ Vec3.one)
        ⟨⟨0, 0, -(1/10)⟩, ⟨1, 0, 0⟩⟩ Transform.identity Transform.identity 0
        0).velocity.angvel
      ≠ Quat.rotv (portal_to_portal Transform.identity
          (Transform.mk ⟨100, 0, 0⟩ ⟨0, 0, 0, 1⟩ Vec3.one)).rotation ⟨1, 0, 0⟩ := by
  have hfwd : Transform.identity.forward = Vec3.mk 0 0 (-1) :=
    Transform.forward_of_id_rotation _ rfl
  have h1 : ((Transform.mk ⟨0, 0, 2/5⟩ ⟨0, 0, 0, 1⟩ Vec3.one).translation
      - Transform.identity.translation
      + PORTAL_MESH_DEPTH • Transform.identity.forward).length
      < PLAYER_PROXIMITY_THRESHOLD := by
    rw [hfwd, Vec3.length_lt_iff _ _ (by norm_num [PLAYER_PROXIMITY_THRESHOLD])]
    simp only [Transform.identity, Vec3.zero, Vec3.smul_def, Vec3.add_def, Vec3.sub_def,
      Vec3.dot, PORTAL_MESH_DEPTH, PLAYER_PROXIMITY_THRESHOLD]
    norm_num
  have h2 : 0 < ((Transform.mk ⟨0, 0, 2/5⟩ ⟨0, 0, 0, 1⟩ Vec3.one).translation
      - Transform.identity.translation
      + PORTAL_MESH_DEPTH • Transform.identity.forward).dot
        Transform.identity.forward := by
    rw [hfwd]
    simp only [Transform.identity, Vec3.zero, Vec3.smul_def, Vec3.add_def, Vec3.sub_def,
      Vec3.dot, PORTAL_MESH_DEPTH]
    norm_num
  have hang : (teleport_player_step Transform.identity
      (Transform.mk ⟨100, 0, 0⟩ ⟨0, 0, 0, 1⟩ Vec3.one)
      (Transform.mk ⟨0, 0, 2/5⟩ ⟨0, 0, 0, 1⟩ Vec3.one)
      ⟨⟨0, 0, -(1/10)⟩, ⟨1, 0, 0⟩⟩ Transform.identity Transform.identity 0
      0).velocity.angvel = Vec3.mk 1 0 0 := by
    rw [teleport_player_step_crossing_a _ _ _ _ _ _ _ _ h1 h2]
  have hrot : Quat.rotv (portal_to_portal Transform.identity
      (Transform.mk ⟨100, 0, 0⟩ ⟨0, 0, 0, 1⟩ Vec3.one)).rotation ⟨1, 0, 0⟩
      = Vec3.mk (-1) 0 0 := by
    rw [portal_to_portal_rotation, Quat.from_rotation_y_pi]
    rw [show ((Transform.mk ⟨100, 0, 0⟩ ⟨0, 0, 0, 1⟩ Vec3.one).rotation.mul
        (Quat.mk 0 1 0 0)).mul Transform.identity.rotation.conj = Quat.mk 0 1 0 0
      from by
        simp only [Transform.identity, Quat.mul, Quat.conj, Quat.one, Quat.mk.injEq]
        norm_num]
    simp only [Quat.rotv, Vec3.dot, Vec3.cross, Vec3.smul_def, Vec3.add_def,
      Vec3.mk.injEq]
    norm_num
  refine ⟨⟨h1, h2⟩, hang, hrot, ?_⟩
  rw [hang, hrot]
  simp only [Vec3.mk.injEq, ne_eq]
  norm_num

/-- Witness for C6 at a concrete player crossing through portal A. -/
theorem pose_and_velocity_on_crossing_witness :
    (teleport_player_step Transform.identity
        (Transform.mk ⟨100, 0, 0⟩ ⟨0, 0, 0, 1⟩ Vec3.one)
        (Transform.mk ⟨0, 0, 2/5⟩ ⟨0, 0, 0, 1⟩ Vec3.one)
        ⟨⟨0, 0, -(1/10)⟩, ⟨1, 0, 0⟩⟩ Transform.identity Transform.identity 0
        0).player
      = (adjust_player_camera_on_teleport (portal_to_portal Transform.identity
          (Transform.mk ⟨100, 0, 0⟩ ⟨0, 0, 0, 1⟩ Vec3.one)) Transform.identity
          Transform.identity 0 (Transform.mk ⟨0, 0, 2/5⟩ ⟨0, 0, 0, 1⟩ Vec3.one)
          0).player ∧
    (teleport_player_step Transform.identity
        (Transform.mk ⟨100, 0, 0⟩ ⟨0, 0, 0, 1⟩ Vec3.one)
        (Transform.mk ⟨0, 0, 2/5⟩ ⟨0, 0, 0, 1⟩ Vec3.one)
        ⟨⟨0, 0, -(1/10)⟩, ⟨1, 0, 0⟩⟩ Transform.identity Transform.identity 0
        0).velocity.angvel = Vec3.mk 1 0 0 ∧
    ∃ c : ℝ, 0 ≤ c ∧
      (teleport_player_step Transform.identity
          (Transform.mk ⟨100, 0, 0⟩ ⟨0, 0, 0, 1⟩ Vec3.one)
          (Transform.mk ⟨0, 0, 2/5⟩ ⟨0, 0, 0, 1⟩ Vec3.one)
          ⟨⟨0, 0, -(1/10)⟩, ⟨1, 0, 0⟩⟩ Transform.identity Transform.identity 0
          0).velocity.linvel
        = c • (Transform.mk ⟨100, 0, 0⟩ ⟨0, 0, 0, 1⟩ Vec3.one).back := by
  have hfwd : Transform.identity.forward = Vec3.mk 0 0 (-1) :=
    Transform.forward_of_id_rotation _ rfl
  have h1 : ((Transform.mk ⟨0, 0, 2/5⟩ ⟨0, 0, 0, 1⟩ Vec3.one).translation
      - Transform.identity.translation
      + PORTAL_MESH_DEPTH • Transform.identity.forward).length
      < PLAYER_PROXIMITY_THRESHOLD := by
    rw [hfwd, Vec3.length_lt_iff _ _ (by norm_num [PLAYER_PROXIMITY_THRESHOLD])]
    simp only [Transform.identity, Vec3.zero, Vec3.smul_def, Vec3.add_def, Vec3.sub_def,
      Vec3.dot, PORTAL_MESH_DEPTH, PLAYER_PROXIMITY_THRESHOLD]
    norm_num
  have h2 : 0 < ((Transform.mk ⟨0, 0, 2/5⟩ ⟨0, 0, 0, 1⟩ Vec3.one).translation
      - Transform.identity.translation
      + PORTAL_MESH_DEPTH • Transform.identity.forward).dot
        Transform.identity.forward := by
    rw [hfwd]
    simp only [Transform.identity, Vec3.zero, Vec3.smul_def, Vec3.add_def, Vec3.sub_def,
      Vec3.dot, PORTAL_MESH_DEPTH]
    norm_num
  exact (pose_and_velocity_on_crossing Transform.identity
    (Transform.mk ⟨100, 0, 0⟩ ⟨0, 0, 0, 1⟩ Vec3.one) Transform.identity
    (Transform.mk ⟨0, 0, 2/5⟩ ⟨0, 0, 0, 1⟩ Vec3.one) Transform.identity
    Transform.identity ⟨⟨0, 0, 0⟩, ⟨0, 0, 0⟩⟩ ⟨⟨0, 0, -(1/10)⟩, ⟨1, 0, 0⟩⟩ 0
    0).2.2.1 ⟨h1, h2⟩

/-- C7: if applying the raw teleport transform leaves the player's up vector
within the 0.001 componentwise tolerance of world up, the orientation-correction
routine does nothing beyond the raw transform (the player pose is exactly
`teleport * player`, so its rotation is the teleport rotation composed with the
prior player rotation, and the camera-local transform and stored pitch are
untouched); when the deviation exceeds the tolerance, the re-leveling skips the
yaw adjustment (leaving the re-set identity rotation) if the horizontal
look-direction component is near zero, and skips the pitch adjustment (leaving
camera and stored pitch untouched) if the vertical component is near zero. -/
theorem adjust_player_camera_upright_noop
    (teleport camera_global camera_local : Transform) (pe : ℕ) (player : Transform)
    (pitch : ℝ) :
    (Vec3.abs_diff_eq (teleport.mul_transform player).up Vec3.unitY 0.001 →
      adjust_player_camera_on_teleport teleport camera_global camera_local pe player
          pitch
        = ⟨teleport.mul_transform player, camera_local, pitch⟩) ∧
    (¬ Vec3.abs_diff_eq (teleport.mul_transform player).up Vec3.unitY 0.001 →
      (Vec3.mk (Quat.rotv teleport.rotation camera_local.forward).x 0
          (Quat.rotv teleport.rotation camera_local.forward).z).length ≤ 0.001 →
      (adjust_player_camera_on_teleport teleport camera_global camera_local pe player
          pitch).player.rotation = Quat.one) ∧
    (¬ Vec3.abs_diff_eq (teleport.mul_transform player).up Vec3.unitY 0.001 →
      (Vec3.mk 0 (Quat.rotv teleport.rotation camera_local.forward).y
          (Quat.rotv teleport.rotation camera_local.forward).z).length ≤ 0.001 →
      (adjust_player_camera_on_teleport teleport camera_global camera_local pe player
          pitch).camera_local = camera_local ∧
      (adjust_player_camera_on_teleport teleport camera_global camera_local pe player
          pitch).pitch = pitch) := by
  refine ⟨?_, ?_, ?_⟩
  · intro h
    simp only [adjust_player_camera_on_teleport]
    rw [if_neg (not_not_intro h)]
  · intro h hh
    simp only [adjust_player_camera_on_teleport]
    rw [if_pos h, if_neg (not_lt.mpr hh)]
    by_cases hm : (Vec3.mk 0 (Quat.rotv teleport.rotation camera_local.forward).y
        (Quat.rotv teleport.rotation camera_local.forward).z).length > 0.001
    · rw [if_pos hm]
    · rw [if_neg hm]
  · intro h hm
    simp only [adjust_player_camera_on_teleport]
    rw [if_pos h, if_neg (not_lt.mpr hm)]
    exact ⟨rfl, rfl⟩

/-- Witness for C7: an identity teleport of an upright player is a pure raw
transform with camera and pitch untouched. -/
theorem adjust_player_camera_upright_noop_witness :
    adjust_player_camera_on_teleport Transform.identity Transform.identity
        Transform.identity 0 Transform.identity 0
      = ⟨Transform.identity.mul_transform Transform.identity, Transform.identity, 0⟩ := by
  have hq : Quat.one.mul Quat.one = Quat.one := by
    simp only [Quat.mul, Quat.one, Quat.mk.injEq]
    norm_num
  have hup : (Transform.identity.mul_transform Transform.identity).up = Vec3.unitY := by
    show Quat.rotv (Quat.one.mul Quat.one) Vec3.unitY = Vec3.unitY
    rw [hq, Quat.rotv_one]
  refine (adjust_player_camera_upright_noop Transform.identity Transform.identity
    Transform.identity 0 Transform.identity 0).1 ?_
  rw [hup]
  simp only [Vec3.abs_diff_eq, Vec3.unitY]
  norm_num

/-- C8: when the portal-firing ray cast hits nothing, `spawn_portal` is a
no-op: no despawn command is issued for any previously existing portal or its
camera, and nothing is spawned; the despawn of a previous portal (camera first,
then the portal entity) happens only on the successful-hit path. -/
theorem spawn_portal_miss_noop (portal_query : Option (PortalModel × ℕ))
    (player_transform : Transform) (other_portal_entity : Option ℕ)
    (rapier : CastRayOracle) :
    spawn_portal none portal_query player_transform other_portal_entity rapier
        = ⟨[], none⟩ ∧
    (spawn_portal none portal_query player_transform other_portal_entity
        rapier).despawned = [] ∧
    (spawn_portal none portal_query player_transform other_portal_entity
        rapier).spawned = none ∧
    (∀ (e : ℕ) (impact : RayIntersection) (linked : Option ℕ)
        (orientation : PortalOrientation) (portal_entity cam : ℕ),
      (spawn_portal (some (e, impact))
          (some (PortalModel.mk (some cam) linked orientation, portal_entity))
          player_transform other_portal_entity rapier).despawned
        = [cam, portal_entity]) :=
  ⟨rfl, rfl, rfl, fun _ _ _ _ _ _ => rfl⟩

theorem teleport_props_step_unchanged_a (pa pb obj : Transform) (v : Velocity)
    (hl : (obj.translation - pa.translation + PORTAL_MESH_DEPTH • pa.forward).length
      < PROXIMITY_THRESHOLD)
    (hnd : ¬ 0 < (obj.translation - pa.translation
      + PORTAL_MESH_DEPTH • pa.forward).dot pa.forward) :
    teleport_props_step pa pb obj v = ⟨obj, v⟩ := by
  simp only [teleport_props_step]
  rw [if_pos hl, if_neg hnd]

/-- C9: per tick the two directional teleports are mutually exclusive by
construction for every teleportable entity: the A-to-B and B-to-A guard
conditions of `teleport_props_step` and `teleport_player_step` cannot hold
together (the B check sits in the else branch of the A proximity test), and
each step either applies the A-to-B transform, applies the B-to-A transform, or
leaves the entity unchanged — never more than one. -/
theorem teleport_directions_mutually_exclusive
    (pa pb obj pl cl cg : Transform) (v pv : Velocity) (pe : ℕ) (pitch : ℝ) :
    ¬ ((((obj.translation - pa.translation
          + PORTAL_MESH_DEPTH • pa.forward).length < PROXIMITY_THRESHOLD ∧
        0 < (obj.translation - pa.translation
          + PORTAL_MESH_DEPTH • pa.forward).dot pa.forward)) ∧
      ((¬ (obj.translation - pa.translation
          + PORTAL_MESH_DEPTH • pa.forward).length < PROXIMITY_THRESHOLD) ∧
        (obj.translation - pb.translation
          + PORTAL_MESH_DEPTH • pb.forward).length < PROXIMITY_THRESHOLD ∧
        0 < (obj.translation - pb.translation
          + PORTAL_MESH_DEPTH • pb.forward).dot pb.forward)) ∧
    ¬ ((((pl.translation - pa.translation
          + PORTAL_MESH_DEPTH • pa.forward).length < PLAYER_PROXIMITY_THRESHOLD ∧
        0 < (pl.translation - pa.translation
          + PORTAL_MESH_DEPTH • pa.forward).dot pa.forward)) ∧
      ((¬ (pl.translation - pa.translation
          + PORTAL_MESH_DEPTH • pa.forward).length < PLAYER_PROXIMITY_THRESHOLD) ∧
        (pl.translation - pb.translation
          + PORTAL_MESH_DEPTH • pb.forward).length < PLAYER_PROXIMITY_THRESHOLD ∧
        0 < (pl.translation - pb.translation
          + PORTAL_MESH_DEPTH • pb.forward).dot pb.forward)) ∧
    (teleport_props_step pa pb obj v
        = ⟨(portal_to_portal pa pb).mul_transform obj,
           ⟨Quat.rotv (portal_to_portal pa pb).rotation v.linvel,
            Quat.rotv (portal_to_portal pa pb).rotation v.angvel⟩⟩ ∨
      teleport_props_step pa pb obj v
        = ⟨(portal_to_portal pb pa).mul_transform obj,
           ⟨Quat.rotv (portal_to_portal pb pa).rotation v.linvel,
            Quat.rotv (portal_to_portal pb pa).rotation v.angvel⟩⟩ ∨
      teleport_props_step pa pb obj v = ⟨obj, v⟩) ∧
    ((teleport_player_step pa pb pl pv cl cg pe pitch).player
        = (adjust_player_camera_on_teleport (portal_to_portal pa pb) cg cl pe pl
            pitch).player ∧
      (teleport_player_step pa pb pl pv cl cg pe pitch).velocity.angvel = pv.angvel ∨
      (teleport_player_step pa pb pl pv cl cg pe pitch).player
        = (adjust_player_camera_on_teleport (portal_to_portal pb pa) cg cl pe pl
            pitch).player ∧
      (teleport_player_step pa pb pl pv cl cg pe pitch).velocity.angvel = pv.angvel ∨
      teleport_player_step pa pb pl pv cl cg pe pitch = ⟨pl, pv, cl, pitch⟩) := by
  refine ⟨?_, ?_, ?_, ?_⟩
  · rintro ⟨⟨h1, _⟩, ⟨h2, _, _⟩⟩
    exact h2 h1
  · rintro ⟨⟨h1, _⟩, ⟨h2, _, _⟩⟩
    exact h2 h1
  · by_cases h1 : (obj.translation - pa.translation
        + PORTAL_MESH_DEPTH • pa.forward).length < PROXIMITY_THRESHOLD
    · by_cases h2 : 0 < (obj.translation - pa.translation
          + PORTAL_MESH_DEPTH • pa.forward).dot pa.forward
      · exact Or.inl (teleport_props_step_crossing_a pa pb obj v h1 h2)
      · exact Or.inr (Or.inr (teleport_props_step_unchanged_a pa pb obj v h1 h2))
    · by_cases h3 : (obj.translation - pb.translation
          + PORTAL_MESH_DEPTH • pb.forward).length < PROXIMITY_THRESHOLD ∧
        0 < (obj.translation - pb.translation
          + PORTAL_MESH_DEPTH • pb.forward).dot pb.forward
      · exact Or.inr (Or.inl (teleport_props_step_crossing_b pa pb obj v h1 h3.1 h3.2))
      · exact Or.inr (Or.inr (teleport_props_step_unchanged pa pb obj v
          (fun hc => h1 hc.1) h3))
  · by_cases h1 : (pl.translation - pa.translation
        + PORTAL_MESH_DEPTH • pa.forward).length < PLAYER_PROXIMITY_THRESHOLD
    · by_cases h2 : 0 < (pl.translation - pa.translation
          + PORTAL_MESH_DEPTH • pa.forward).dot pa.forward
      · refine Or.inl ?_
        rw [teleport_player_step_crossing_a pa pb pl pv cl cg pe pitch h1 h2]
        exact ⟨rfl, rfl⟩
      · refine Or.inr (Or.inr ?_)
        exact teleport_player_step_unchanged_a pa pb pl pv cl cg pe pitch h1 h2
    · by_cases h3 : (pl.translation - pb.translation
          + PORTAL_MESH_DEPTH • pb.forward).length < PLAYER_PROXIMITY_THRESHOLD
      · by_cases h4 : 0 < (pl.translation - pb.translation
            + PORTAL_MESH_DEPTH • pb.forward).dot pb.forward
        · refine Or.inr (Or.inl ?_)
          rw [teleport_player_step_crossing_b pa pb pl pv cl cg pe pitch h1 h3 h4]
          exact ⟨rfl, rfl⟩
        · exact Or.inr (Or.inr
            (teleport_player_step_unchanged_b pa pb pl pv cl cg pe pitch h1 h3 h4))
      · exact Or.inr (Or.inr
          (teleport_player_step_unchanged_far pa pb pl pv cl cg pe pitch h1 h3))

/-- Witness for C9 at concrete inputs. -/
theorem teleport_directions_mutually_exclusive_witness :
    ¬ (((((Transform.mk ⟨0, 0, 2/5⟩ ⟨0, 0, 0, 1⟩ Vec3.one).translation
          - Transform.identity.translation
          + PORTAL_MESH_DEPTH • Transform.identity.forward).length
            < PROXIMITY_THRESHOLD ∧
        0 < (((Transform.mk ⟨0, 0, 2/5⟩ ⟨0, 0, 0, 1⟩ Vec3.one).translation
          - Transform.identity.translation
          + PORTAL_MESH_DEPTH • Transform.identity.forward)).dot
            Transform.identity.forward)) ∧
      ((¬ ((Transform.mk ⟨0, 0, 2/5⟩ ⟨0, 0, 0, 1⟩ Vec3.one).translation
          - Transform.identity.translation
          + PORTAL_MESH_DEPTH • Transform.identity.forward).length
            < PROXIMITY_THRESHOLD) ∧
        ((Transform.mk ⟨0, 0, 2/5⟩ ⟨0, 0, 0, 1⟩ Vec3.one).translation
          - (Transform.mk ⟨100, 0, 0⟩ ⟨0, 0, 0, 1⟩ Vec3.one).translation
          + PORTAL_MESH_DEPTH
            • (Transform.mk ⟨100, 0, 0⟩ ⟨0, 0, 0, 1⟩ Vec3.one).forward).length
            < PROXIMITY_THRESHOLD ∧
        0 < (((Transform.mk ⟨0, 0, 2/5⟩ ⟨0, 0, 0, 1⟩ Vec3.one).translation
          - (Transform.mk ⟨100, 0, 0⟩ ⟨0, 0, 0, 1⟩ Vec3.one).translation
          + PORTAL_MESH_DEPTH
            • (Transform.mk ⟨100, 0, 0⟩ ⟨0, 0, 0, 1⟩ Vec3.one).forward)).dot
            (Transform.mk ⟨100, 0, 0⟩ ⟨0, 0, 0, 1⟩ Vec3.one).forward)) :=
  (teleport_directions_mutually_exclusive Transform.identity
    (Transform.mk ⟨100, 0, 0⟩ ⟨0, 0, 0, 1⟩ Vec3.one)
    (Transform.mk ⟨0, 0, 2/5⟩ ⟨0, 0, 0, 1⟩ Vec3.one)
    (Transform.mk ⟨0, 0, 2/5⟩ ⟨0, 0, 0, 1⟩ Vec3.one) Transform.identity
    Transform.identity ⟨⟨0, 0, 0⟩, ⟨0, 0, 0⟩⟩ ⟨⟨0, 0, 0⟩, ⟨0, 0, 0⟩⟩ 0 0).1

namespace Vec3

theorem dot_comm (a b : Vec3) : a.dot b = b.dot a := by
  cases a; cases b
  simp only [dot]
  ring

theorem dot_add_right (a b c : Vec3) : a.dot (b + c) = a.dot b + a.dot c := by
  cases a; cases b; cases c
  simp only [add_def, dot]
  ring

theorem dot_smul_right (c : ℝ) (a b : Vec3) : a.dot (c • b) = c * a.dot b := by
  cases a; cases b
  simp only [smul_def, dot]
  ring

theorem dot_cross_right (n u : Vec3) : n.dot (u.cross n) = 0 := by
  cases n; cases u
  simp only [cross, dot]
  ring

theorem smul_negv (c : ℝ) (v : Vec3) : c • (-v) = (-c) • v := by
  cases v
  simp only [neg_def, smul_def, mk.injEq]
  refine ⟨by ring, by ring, by ring⟩

theorem add_zero_smul (x v : Vec3) : x + (0 : ℝ) • v = x := by
  cases x; cases v
  simp only [smul_def, add_def, mk.injEq]
  refine ⟨by ring, by ring, by ring⟩

end Vec3


/-- C10: `adjust_portal_origin_to_obstacles` only moves the candidate point in
the plane spanned by `up` and `right = up.cross normal`: the result is
`base + a*up + b*right`, where the vertical coefficient `a` comes from at most
one of the down/up rays (magnitude `1 - distance` of the obstructing hit, zero
if neither hits) and the horizontal coefficient `b` likewise from at most one
of the left/right rays cast from the vertically corrected point `vc`;
consequently, whenever `up` is orthogonal to the surface normal, the result
keeps the input's component along the normal. -/
theorem adjust_portal_origin_in_plane (base_location impact_normal up : Vec3)
    (rapier : CastRayOracle) :
    (∃ (a b : ℝ) (vc : Vec3),
      vc = base_location + a • up ∧
      adjust_portal_origin_to_obstacles base_location impact_normal up rapier
        = vc + b • up.cross impact_normal ∧
      ((∃ e d, rapier base_location (-up) 1 false
          (RAYCAST_GROUP, WALLS_GROUP ||| GROUND_GROUP) = some (e, d) ∧ a = 1 - d) ∨
        (rapier base_location (-up) 1 false
            (RAYCAST_GROUP, WALLS_GROUP ||| GROUND_GROUP) = none ∧
          ∃ e d, rapier base_location up 1 false
            (RAYCAST_GROUP, WALLS_GROUP ||| GROUND_GROUP) = some (e, d) ∧
            a = -(1 - d)) ∨
        (rapier base_location (-up) 1 false
            (RAYCAST_GROUP, WALLS_GROUP ||| GROUND_GROUP) = none ∧
          rapier base_location up 1 false
            (RAYCAST_GROUP, WALLS_GROUP ||| GROUND_GROUP) = none ∧ a = 0)) ∧
      ((∃ e d, rapier vc (-(up.cross impact_normal)) 1 false
          (RAYCAST_GROUP, WALLS_GROUP ||| GROUND_GROUP) = some (e, d) ∧ b = 1 - d) ∨
        (rapier vc (-(up.cross impact_normal)) 1 false
            (RAYCAST_GROUP, WALLS_GROUP ||| GROUND_GROUP) = none ∧
          ∃ e d, rapier vc (up.cross impact_normal) 1 false
            (RAYCAST_GROUP, WALLS_GROUP ||| GROUND_GROUP) = some (e, d) ∧
            b = -(1 - d)) ∨
        (rapier vc (-(up.cross impact_normal)) 1 false
            (RAYCAST_GROUP, WALLS_GROUP ||| GROUND_GROUP) = none ∧
          rapier vc (up.cross impact_normal) 1 false
            (RAYCAST_GROUP, WALLS_GROUP ||| GROUND_GROUP) = none ∧ b = 0))) ∧
    (up.dot impact_normal = 0 →
      impact_normal.dot
          (adjust_portal_origin_to_obstacles base_location impact_normal up rapier)
        = impact_normal.dot base_location) := by
  have main : ∃ (a b : ℝ) (vc : Vec3),
      vc = base_location + a • up ∧
      adjust_portal_origin_to_obstacles base_location impact_normal up rapier
        = vc + b • up.cross impact_normal ∧
      ((∃ e d, rapier base_location (-up) 1 false
          (RAYCAST_GROUP, WALLS_GROUP ||| GROUND_GROUP) = some (e, d) ∧ a = 1 - d) ∨
        (rapier base_location (-up) 1 false
            (RAYCAST_GROUP, WALLS_GROUP ||| GROUND_GROUP) = none ∧
          ∃ e d, rapier base_location up 1 false
            (RAYCAST_GROUP, WALLS_GROUP ||| GROUND_GROUP) = some (e, d) ∧
            a = -(1 - d)) ∨
        (rapier base_location (-up) 1 false
            (RAYCAST_GROUP, WALLS_GROUP ||| GROUND_GROUP) = none ∧
          rapier base_location up 1 false
            (RAYCAST_GROUP, WALLS_GROUP ||| GROUND_GROUP) = none ∧ a = 0)) ∧
      ((∃ e d, rapier vc (-(up.cross impact_normal)) 1 false
          (RAYCAST_GROUP, WALLS_GROUP ||| GROUND_GROUP) = some (e, d) ∧ b = 1 - d) ∨
        (rapier vc (-(up.cross impact_normal)) 1 false
            (RAYCAST_GROUP, WALLS_GROUP ||| GROUND_GROUP) = none ∧
          ∃ e d, rapier vc (up.cross impact_normal) 1 false
            (RAYCAST_GROUP, WALLS_GROUP ||| GROUND_GROUP) = some (e, d) ∧
            b = -(1 - d)) ∨
        (rapier vc (-(up.cross impact_normal)) 1 false
            (RAYCAST_GROUP, WALLS_GROUP ||| GROUND_GROUP) = none ∧
          rapier vc (up.cross impact_normal) 1 false
            (RAYCAST_GROUP, WALLS_GROUP ||| GROUND_GROUP) = none ∧ b = 0)) := by
    simp only [adjust_portal_origin_to_obstacles]
    cases hv1 : rapier base_location (-up) 1 false
        (RAYCAST_GROUP, WALLS_GROUP ||| GROUND_GROUP) with
    | some p =>
      obtain ⟨e1, d1⟩ := p
      dsimp only
      cases hh1 : rapier (base_location + (1 - d1) • up) (-(up.cross impact_normal)) 1
          false (RAYCAST_GROUP, WALLS_GROUP ||| GROUND_GROUP) with
      | some q =>
        obtain ⟨e2, d2⟩ := q
        dsimp only
        exact ⟨1 - d1, 1 - d2, base_location + (1 - d1) • up, rfl, rfl,
          Or.inl ⟨e1, d1, rfl, rfl⟩, Or.inl ⟨e2, d2, hh1, rfl⟩⟩
      | none =>
        dsimp only
        cases hh2 : rapier (base_location + (1 - d1) • up) (up.cross impact_normal) 1
            false (RAYCAST_GROUP, WALLS_GROUP ||| GROUND_GROUP) with
        | some q =>
          obtain ⟨e2, d2⟩ := q
          dsimp only
          refine ⟨1 - d1, -(1 - d2), base_location + (1 - d1) • up, rfl, ?_,
            Or.inl ⟨e1, d1, rfl, rfl⟩, Or.inr (Or.inl ⟨hh1, e2, d2, hh2, rfl⟩)⟩
          rw [Vec3.smul_negv]
        | none =>
          dsimp only
          refine ⟨1 - d1, 0, base_location + (1 - d1) • up, rfl, ?_,
            Or.inl ⟨e1, d1, rfl, rfl⟩, Or.inr (Or.inr ⟨hh1, hh2, rfl⟩)⟩
          rw [Vec3.add_zero_smul]
    | none =>
      dsimp only
      cases hv2 : rapier base_location up 1 false
          (RAYCAST_GROUP, WALLS_GROUP ||| GROUND_GROUP) with
      | some p =>
        obtain ⟨e1, d1⟩ := p
        dsimp only
        cases hh1 : rapier (base_location + (1 - d1) • -up) (-(up.cross impact_normal))
            1 false (RAYCAST_GROUP, WALLS_GROUP ||| GROUND_GROUP) with
        | some q =>
          obtain ⟨e2, d2⟩ := q
          dsimp only
          refine ⟨-(1 - d1), 1 - d2, base_location + (1 - d1) • -up, ?_, rfl,
            Or.inr (Or.inl ⟨rfl, e1, d1, rfl, rfl⟩), Or.inl ⟨e2, d2, hh1, rfl⟩⟩
          rw [Vec3.smul_negv]
        | none =>
          dsimp only
          cases hh2 : rapier (base_location + (1 - d1) • -up) (up.cross impact_normal)
              1 false (RAYCAST_GROUP, WALLS_GROUP ||| GROUND_GROUP) with
          | some q =>
            obtain ⟨e2, d2⟩ := q
            dsimp only
            refine ⟨-(1 - d1), -(1 - d2), base_location + (1 - d1) • -up, ?_, ?_,
              Or.inr (Or.inl ⟨rfl, e1, d1, rfl, rfl⟩),
              Or.inr (Or.inl ⟨hh1, e2, d2, hh2, rfl⟩)⟩
            · rw [Vec3.smul_negv]
            · rw [Vec3.smul_negv, Vec3.smul_negv]
          | none =>
            dsimp only
            refine ⟨-(1 - d1), 0, base_location + (1 - d1) • -up, ?_, ?_,
              Or.inr (Or.inl ⟨rfl, e1, d1, rfl, rfl⟩),
              Or.inr (Or.inr ⟨hh1, hh2, rfl⟩)⟩
            · rw [Vec3.smul_negv]
            · rw [Vec3.add_zero_smul]
      | none =>
        dsimp only
        cases hh1 : rapier base_location (-(up.cross impact_normal)) 1 false
            (RAYCAST_GROUP, WALLS_GROUP ||| GROUND_GROUP) with
        | some q =>
          obtain ⟨e2, d2⟩ := q
          dsimp only
          refine ⟨0, 1 - d2, base_location, ?_, rfl,
            Or.inr (Or.inr ⟨rfl, rfl, rfl⟩), Or.inl ⟨e2, d2, hh1, rfl⟩⟩
          rw [Vec3.add_zero_smul]
        | none =>
          dsimp only
          cases hh2 : rapier base_location (up.cross impact_normal) 1 false
              (RAYCAST_GROUP, WALLS_GROUP ||| GROUND_GROUP) with
          | some q =>
            obtain ⟨e2, d2⟩ := q
            dsimp only
            refine ⟨0, -(1 - d2), base_location, ?_, ?_,
              Or.inr (Or.inr ⟨rfl, rfl, rfl⟩),
              Or.inr (Or.inl ⟨hh1, e2, d2, hh2, rfl⟩)⟩
            · rw [Vec3.add_zero_smul]
            · rw [Vec3.smul_negv]
          | none =>
            dsimp only
            refine ⟨0, 0, base_location, ?_, ?_,
              Or.inr (Or.inr ⟨rfl, rfl, rfl⟩), Or.inr (Or.inr ⟨hh1, hh2, rfl⟩)⟩
            · rw [Vec3.add_zero_smul]
            · rw [Vec3.add_zero_smul]
  refine ⟨main, ?_⟩
  intro hperp
  obtain ⟨a, b, vc, hvc, hres, -, -⟩ := main
  rw [hres, hvc, Vec3.dot_add_right, Vec3.dot_add_right, Vec3.dot_smul_right,
    Vec3.dot_smul_right, Vec3.dot_cross_right, Vec3.dot_comm impact_normal up, hperp]
  ring

/-- Witness for C10: with no obstructions the candidate point is unmoved and its
normal component is preserved (tangent up). -/
theorem adjust_portal_origin_in_plane_witness :
    (Vec3.mk 0 0 1).dot (adjust_portal_origin_to_obstacles ⟨1, 2, 3⟩ ⟨0, 0, 1⟩
        ⟨0, 1, 0⟩ (fun _ _ _ _ _ => none))
      = (Vec3.mk 0 0 1).dot ⟨1, 2, 3⟩ :=
  (adjust_portal_origin_in_plane ⟨1, 2, 3⟩ ⟨0, 0, 1⟩ ⟨0, 1, 0⟩
    (fun _ _ _ _ _ => none)).2 (by simp [Vec3.dot])

/-- C4 counterexample: two teleportable entities (2 and 3) overlap portal A's
sensor (entity 0); after the events [start(A,2), start(A,3), stop(A,2)] the
filter of entity 2 is already restored to the full default set even though the
contact of entity 3 with portal A is still active — no contact set is tracked,
so a stop event for one contact restores a filter while another contact with
the same portal remains. -/
theorem collision_gating_counterexample :
    turn_off_collisions_with_static_geo_when_in_portal 0 PortalOrientation.Other 1
        PortalOrientation.Other (fun e => decide (2 ≤ e)) (fun _ => ALL_GROUPS)
        [CollisionEvent.Started 0 2, CollisionEvent.Started 0 3,
         CollisionEvent.Stopped 0 2] 2
      = ALL_GROUPS ∧
    turn_off_collisions_with_static_geo_when_in_portal 0 PortalOrientation.Other 1
        PortalOrientation.Other (fun e => decide (2 ≤ e)) (fun _ => ALL_GROUPS)
        [CollisionEvent.Started 0 2, CollisionEvent.Started 0 3] 2
      = filter_collisions PortalOrientation.Other ∧
    filter_collisions PortalOrientation.Other ≠ ALL_GROUPS := by
  refine ⟨?_, ?_, ?_⟩
  · simp only [turn_off_collisions_with_static_geo_when_in_portal, List.foldl,
      process_collision_event, filter_collisions, restore_collisions]
    norm_num [Function.update]
  · simp only [turn_off_collisions_with_static_geo_when_in_portal, List.foldl,
      process_collision_event, filter_collisions, restore_collisions]
    norm_num [Function.update]
  · simp only [filter_collisions, PLAYER_GROUP, PROPS_GROUP, PORTAL_GROUP,
      GROUND_GROUP, ALL_GROUPS]
    decide

/-- C4 (amended): the collision-gating system keeps no per-portal contact set;
every event is handled on its own.  A collision-start involving a portal
immediately relaxes the filter of the other collider (when teleportable) to the
portal's orientation-dependent filter; a collision-stop involving portal A
immediately restores the filter of the event's SECOND collider to the full
default set regardless of any other still-active contacts with that portal
(and a stop naming the portal as second collider restores nothing, because the
portal entity itself is not teleportable); for portal B the stop arm instead
restores the event's FIRST collider. -/
theorem collision_gating_immediate (portal_a_entity : ℕ) (portal_a : PortalOrientation)
    (portal_b_entity : ℕ) (portal_b : PortalOrientation) (teleportable : ℕ → Bool)
    (filters : ℕ → ℕ) (events : List CollisionEvent) (e : ℕ) :
    (teleportable e = true →
      turn_off_collisions_with_static_geo_when_in_portal portal_a_entity portal_a
          portal_b_entity portal_b teleportable filters
          (events ++ [CollisionEvent.Started portal_a_entity e]) e
        = filter_collisions portal_a) ∧
    (teleportable e = true →
      turn_off_collisions_with_static_geo_when_in_portal portal_a_entity portal_a
          portal_b_entity portal_b teleportable filters
          (events ++ [CollisionEvent.Stopped portal_a_entity e]) e
        = restore_collisions portal_a) ∧
    (teleportable portal_a_entity = false →
      ∀ x, turn_off_collisions_with_static_geo_when_in_portal portal_a_entity portal_a
          portal_b_entity portal_b teleportable filters
          (events ++ [CollisionEvent.Stopped e portal_a_entity]) x
        = turn_off_collisions_with_static_geo_when_in_portal portal_a_entity portal_a
            portal_b_entity portal_b teleportable filters events x) ∧
    (teleportable e = true → e ≠ portal_a_entity → portal_b_entity ≠ portal_a_entity →
      turn_off_collisions_with_static_geo_when_in_portal portal_a_entity portal_a
          portal_b_entity portal_b teleportable filters
          (events ++ [CollisionEvent.Stopped e portal_b_entity]) e
        = restore_collisions portal_b) := by
  refine ⟨?_, ?_, ?_, ?_⟩
  · intro ht
    simp only [turn_off_collisions_with_static_geo_when_in_portal, List.foldl_append,
      List.foldl, process_collision_event]
    simp [ht]
  · intro ht
    simp only [turn_off_collisions_with_static_geo_when_in_portal, List.foldl_append,
      List.foldl, process_collision_event]
    simp [ht]
  · intro hpa x
    simp only [turn_off_collisions_with_static_geo_when_in_portal, List.foldl_append,
      List.foldl, process_collision_event]
    simp [hpa]
  · intro ht hea hba
    simp only [turn_off_collisions_with_static_geo_when_in_portal, List.foldl_append,
      List.foldl, process_collision_event]
    simp [ht, hea, hba]

/-- Witness for C4: a stop event directly after a start restores the entity's
filter to the full default set. -/
theorem collision_gating_immediate_witness :
    turn_off_collisions_with_static_geo_when_in_portal 0 PortalOrientation.Other 1
        PortalOrientation.Other (fun e => decide (2 ≤ e)) (fun _ => ALL_GROUPS)
        ([CollisionEvent.Started 0 2] ++ [CollisionEvent.Stopped 0 2]) 2
      = restore_collisions PortalOrientation.Other :=
  (collision_gating_immediate 0 PortalOrientation.Other 1 PortalOrientation.Other
    (fun e => decide (2 ≤ e)) (fun _ => ALL_GROUPS)
    [CollisionEvent.Started 0 2] 2).2.1 (by decide)
